import Mathlib

/-!
Verification of the image-generator front end (static/js of the repository):
a shallow embedding of `config.js`, `promptBuilder.js`, `api.js`, `app.js`
and `storage.js`, followed by theorems about prompt construction, request
assembly, dimension/orientation handling, the history store and the
response parsing of the third-party image API.

Strings are modelled by Lean `String`; JS string concatenation is `++`.
JS truthiness on strings (`""` is falsy) is modelled explicitly where the
source relies on it.
-/

namespace ImageGen

/-- Substring containment: `pat` occurs inside `s` (JS `String.includes` /
a literal-only regex test). -/
def strContains (s pat : String) : Prop := pat.data <:+: s.data

instance (s pat : String) : Decidable (strContains s pat) := by
  unfold strContains; infer_instance

/-- Boolean version of `strContains`, used inside modelled JS code. -/
def strContainsB (s pat : String) : Bool := decide (strContains s pat)

/-- ASCII lower-casing of one character (model of JS `toLowerCase` on the
character sets the keyword tests use). -/
def lowerChar (c : Char) : Char :=
  if 65 ≤ c.toNat ∧ c.toNat ≤ 90 then Char.ofNat (c.toNat + 32) else c

/-- Model of JS `String.prototype.toLowerCase`. -/
def jsToLower (s : String) : String := ⟨s.data.map lowerChar⟩

/-! ## config.js -/

/-- One entry of a category's `styles` array in `config.js`. -/
structure StyleDef where
  id : String
  name : String
  description : String
  prompt_template : String
deriving DecidableEq, Repr

/-- One entry of `CONFIG.categories` in `config.js`. -/
structure CategoryConfig where
  name : String
  description : String
  aspectRatio : String
  width : Nat
  height : Nat
  styles : List StyleDef
deriving DecidableEq, Repr

/-- The four keys of `CONFIG.categories`. -/
inductive Category where
  | subtopic_cover
  | tutero_ai
  | classroom_activity
  | context_introduction
deriving DecidableEq, Repr

/-- The array `CONFIG.categories.subtopic_cover.styles`. -/
def subtopicCoverStyles : List StyleDef :=
  [ { id := "original", name := "Original",
      description := "Flat 3D with paper-craft aesthetic",
      prompt_template := "Create a minimal flat 3D illustration. Soft lighting, clean lines, and a paper-craft inspired aesthetic. Matte finish with subtle shadows. Friendly, educational, and clean." },
    { id := "glossy_3d", name := "Glossy 3D",
      description := "Dark gradient with translucent glass shapes",
      prompt_template := "Create a minimal glossy 3D illustration. Rich gradient background transitioning from deep purple to navy blue with subtle grid floor. Translucent glass shapes in warm-cool contrast (magenta, golden yellow, with cyan accents). Glossy reflections and light bloom. Only essential elements. ALL ELEMENTS PERFECTLY CENTERED and floating. Vibrant, modern aesthetic. CRITICAL: NO text, NO characters, NO labels, NO numbers. Mathematically precise geometric representation only." },
    { id := "flat_3d", name := "Flat 3D",
      description := "Soft pastels with paper-craft aesthetic",
      prompt_template := "Create a minimal flat 3D illustration. Soft gradient background in pastel tones (light peach to soft lavender). Matte pastel geometric shapes (soft blue, mint green, coral, butter yellow) with subtle shadows. Paper-craft layered aesthetic. Only essential elements. ALL ELEMENTS PERFECTLY CENTERED. Friendly, clean, educational. CRITICAL: NO text, NO characters, NO labels, NO numbers. Mathematically precise." },
    { id := "minimal_clean_3d", name := "Minimal Clean 3D",
      description := "Harmonious colors with subtle lighting",
      prompt_template := "Create a minimal, clean 3D illustration. Use only essential elements that directly represent this mathematical concept - nothing extra. Harmonious color palette with 2-3 complementary colors. Soft gradient background in warm tones (cream to soft coral or cool tones like sky blue to mint). ALL ELEMENTS PERFECTLY CENTERED. Modern, professional aesthetic with subtle lighting and shadows. CRITICAL: NO text, NO characters, NO labels, NO numbers. Mathematically accurate geometric representation only." },
    { id := "paper_craft", name := "Paper-craft",
      description := "Flat colors with layer separation",
      prompt_template := "Create a paper-craft style illustration. Use flat colors with clear layer separation and subtle drop shadows (4-5 colors). Soft gradient background in gentle pastel tones (light blue to cream or soft pink to peach). Elements should appear as cut paper or cardboard layers that represent the mathematical concept. CENTERED COMPOSITION with depth through layering. Friendly, tactile aesthetic. CRITICAL: NO text, NO labels, NO numbers, NO characters. Precise geometric representation only." },
    { id := "watercolor", name := "Watercolor",
      description := "Soft blended colors with gentle transitions",
      prompt_template := "Create a watercolor-inspired visualization. Use soft, blended colors with gentle transitions (watercolor palette: soft blues, pinks, yellows). Colorful textured background with watercolor wash effects (light blues blending into soft pinks or yellows). Elements should blend naturally at edges while maintaining distinct forms that represent the concept. ALL ELEMENTS CENTERED, artistic composition. Gentle, artistic aesthetic. CRITICAL: NO text, NO characters, NO labels, NO numbers. Mathematically accurate representation only." },
    { id := "hand_drawn_chalk", name := "Hand-drawn Chalk",
      description := "Chalk textures on dark slate",
      prompt_template := "Create a hand-drawn style visualization. Use chalk-like textures in white, light blue, yellow, and pink on a rich dark slate background (deep charcoal with subtle blue-green tint). Elements should have a slightly rough, educational feel while clearly illustrating the concept. ALL ELEMENTS CENTERED with subtle texture. Classroom-inspired aesthetic. CRITICAL: NO text, NO written equations, NO labels, NO numbers. Mathematically correct geometric representation only." },
    { id := "holographic", name := "Holographic",
      description := "Iridescent gradient with futuristic aesthetic",
      prompt_template := "Create a holographic style visualization. Vibrant iridescent gradient background with rainbow shimmer effects (cyan, magenta, yellow, purple transitions). Translucent geometric shapes with prismatic reflections and light refraction. Futuristic, sleek aesthetic with glowing edges. Only essential elements. ALL ELEMENTS PERFECTLY CENTERED and floating. Modern, tech-inspired look. CRITICAL: NO text, NO characters, NO labels, NO numbers. Mathematically precise geometric representation only." } ]

/-- The array `CONFIG.categories.tutero_ai.styles`. -/
def tuteroAiStyles : List StyleDef :=
  [ { id := "original", name := "Original",
      description := "Standard 3D character style", prompt_template := "" },
    { id := "glossy_3d", name := "Glossy 3D",
      description := "Dark gradient with translucent glass shapes",
      prompt_template := "Style: Glossy 3D. Rich gradient background transitioning from deep purple to navy blue with subtle grid floor. Translucent glass shapes in warm-cool contrast. Glossy reflections and light bloom. Vibrant, modern aesthetic. CRITICAL: NO text. Character should have glossy, high-end toy finish." },
    { id := "flat_3d", name := "Flat 3D",
      description := "Soft pastels with paper-craft aesthetic",
      prompt_template := "Style: Flat 3D. Soft gradient background in pastel tones. Matte pastel geometric shapes with subtle shadows. Paper-craft layered aesthetic. Friendly, clean. CRITICAL: NO text. Character should look like a soft matte plastic toy or clay render." },
    { id := "minimal_clean_3d", name := "Minimal Clean 3D",
      description := "Harmonious colors with subtle lighting",
      prompt_template := "Style: Minimal Clean 3D. Harmonious color palette with 2-3 complementary colors. Soft gradient background. Modern, professional aesthetic with subtle lighting and shadows. CRITICAL: NO text. Character should be clean and pristine." },
    { id := "paper_craft", name := "Paper-craft",
      description := "Flat colors with layer separation",
      prompt_template := "Style: Paper-craft. Use flat colors with clear layer separation and subtle drop shadows. Soft gradient background. Elements and character should appear as cut paper or cardboard layers. Friendly, tactile aesthetic. CRITICAL: NO text." },
    { id := "watercolor", name := "Watercolor",
      description := "Soft blended colors with gentle transitions",
      prompt_template := "Style: Watercolor. Use soft, blended colors with gentle transitions. Colorful textured background with watercolor wash effects. Elements should blend naturally at edges while maintaining distinct forms. Gentle, artistic aesthetic. CRITICAL: NO text." },
    { id := "hand_drawn_chalk", name := "Hand-drawn Chalk",
      description := "Chalk textures on dark slate",
      prompt_template := "Style: Hand-drawn Chalk. Use chalk-like textures in white, light blue, yellow, and pink on a rich dark slate background. Elements and character should have a slightly rough, educational feel. Classroom-inspired aesthetic. CRITICAL: NO text." },
    { id := "holographic", name := "Holographic",
      description := "Iridescent gradient with futuristic aesthetic",
      prompt_template := "Style: Holographic. Vibrant iridescent gradient background with rainbow shimmer effects. Translucent geometric shapes with prismatic reflections. Futuristic, sleek aesthetic with glowing edges. Character should look like a hologram or made of glass/light. CRITICAL: NO text." } ]

/-- The array `CONFIG.categories.classroom_activity.styles`. -/
def classroomActivityStyles : List StyleDef :=
  [ { id := "original", name := "Original",
      description := "Standard 3D character style", prompt_template := "" },
    { id := "glossy_3d", name := "Glossy 3D",
      description := "Dark gradient with translucent glass shapes",
      prompt_template := "Style: Glossy 3D. Rich gradient background. Translucent glass shapes. Glossy reflections and light bloom. Vibrant, modern aesthetic. CRITICAL: NO text. Character and scene should have glossy, high-end toy finish." },
    { id := "flat_3d", name := "Flat 3D",
      description := "Soft pastels with paper-craft aesthetic",
      prompt_template := "Style: Flat 3D. Soft gradient background in pastel tones. Matte pastel geometric shapes with subtle shadows. Paper-craft layered aesthetic. Friendly, clean. CRITICAL: NO text. Scene should look like a soft matte plastic toy or clay render." },
    { id := "minimal_clean_3d", name := "Minimal Clean 3D",
      description := "Harmonious colors with subtle lighting",
      prompt_template := "Style: Minimal Clean 3D. Harmonious color palette. Soft gradient background. Modern, professional aesthetic with subtle lighting and shadows. CRITICAL: NO text. Clean and pristine." },
    { id := "paper_craft", name := "Paper-craft",
      description := "Flat colors with layer separation",
      prompt_template := "Style: Paper-craft. Use flat colors with clear layer separation and subtle drop shadows. Soft gradient background. Elements and characters should appear as cut paper or cardboard layers. Friendly, tactile aesthetic. CRITICAL: NO text." },
    { id := "watercolor", name := "Watercolor",
      description := "Soft blended colors with gentle transitions",
      prompt_template := "Style: Watercolor. Use soft, blended colors with gentle transitions. Colorful textured background with watercolor wash effects. Elements should blend naturally at edges. Gentle, artistic aesthetic. CRITICAL: NO text." },
    { id := "hand_drawn_chalk", name := "Hand-drawn Chalk",
      description := "Chalk textures on dark slate",
      prompt_template := "Style: Hand-drawn Chalk. Use chalk-like textures in white, light blue, yellow, and pink on a rich dark slate background. Elements and characters should have a slightly rough, educational feel. Classroom-inspired aesthetic. CRITICAL: NO text." },
    { id := "holographic", name := "Holographic",
      description := "Iridescent gradient with futuristic aesthetic",
      prompt_template := "Style: Holographic. Vibrant iridescent gradient background with rainbow shimmer effects. Translucent geometric shapes. Futuristic, sleek aesthetic. Characters should look like holograms or made of glass/light. CRITICAL: NO text." } ]

/-- The array `CONFIG.categories.context_introduction.styles`. -/
def contextIntroductionStyles : List StyleDef :=
  [ { id := "original", name := "Original",
      description := "Photorealistic cinematic style", prompt_template := "" },
    { id := "cartoon", name := "Cartoon",
      description := "Vibrant 2D detailed cartoon",
      prompt_template := "Style: Cartoon. Create a high-quality, vibrant 2D cartoon illustration. Bold lines, bright colors, clear forms. Detailed and engaging. CRITICAL: NO text." },
    { id := "glossy_3d", name := "Glossy 3D",
      description := "Dark gradient with translucent glass shapes",
      prompt_template := "Style: Glossy 3D. Rich gradient background transitioning from deep purple to navy blue. Translucent glass shapes in warm-cool contrast. Glossy reflections and light bloom. Vibrant, modern aesthetic. CRITICAL: NO text. Elements should be abstract and glossy." },
    { id := "flat_3d", name := "Flat 3D",
      description := "Soft pastels with paper-craft aesthetic",
      prompt_template := "Style: Flat 3D. Soft gradient background in pastel tones. Matte pastel geometric shapes with subtle shadows. Paper-craft layered aesthetic. Friendly, clean. CRITICAL: NO text." },
    { id := "minimal_clean_3d", name := "Minimal Clean 3D",
      description := "Harmonious colors with subtle lighting",
      prompt_template := "Style: Minimal Clean 3D. Harmonious color palette with 2-3 complementary colors. Soft gradient background. Modern, professional aesthetic with subtle lighting and shadows. CRITICAL: NO text." },
    { id := "paper_craft", name := "Paper-craft",
      description := "Flat colors with layer separation",
      prompt_template := "Style: Paper-craft. Use flat colors with clear layer separation and subtle drop shadows. Soft gradient background. Elements should appear as cut paper or cardboard layers. Friendly, tactile aesthetic. CRITICAL: NO text." },
    { id := "watercolor", name := "Watercolor",
      description := "Soft blended colors with gentle transitions",
      prompt_template := "Style: Watercolor. Use soft, blended colors with gentle transitions. Colorful textured background with watercolor wash effects. Elements should blend naturally at edges. Gentle, artistic aesthetic. CRITICAL: NO text." },
    { id := "hand_drawn_chalk", name := "Hand-drawn Chalk",
      description := "Chalk textures on dark slate",
      prompt_template := "Style: Hand-drawn Chalk. Use chalk-like textures in white, light blue, yellow, and pink on a rich dark slate background. Elements should have a slightly rough, educational feel. Classroom-inspired aesthetic. CRITICAL: NO text." },
    { id := "holographic", name := "Holographic",
      description := "Iridescent gradient with futuristic aesthetic",
      prompt_template := "Style: Holographic. Vibrant iridescent gradient background with rainbow shimmer effects. Translucent geometric shapes with prismatic reflections. Futuristic, sleek aesthetic with glowing edges. CRITICAL: NO text." } ]

/-- The object `CONFIG.categories` from `config.js`. -/
def catConfig : Category → CategoryConfig
  | .subtopic_cover =>
      { name := "Subtopic Cover Images",
        description := "Cover visuals for educational subtopics",
        aspectRatio := "16:9", width := 1920, height := 1080,
        styles := subtopicCoverStyles }
  | .tutero_ai =>
      { name := "Tutero AI Images",
        description := "AI assistant helping students learn",
        aspectRatio := "9:16", width := 1080, height := 1920,
        styles := tuteroAiStyles }
  | .classroom_activity =>
      { name := "Classroom Activity Images",
        description := "Students engaged in classroom learning",
        aspectRatio := "9:16", width := 1080, height := 1920,
        styles := classroomActivityStyles }
  | .context_introduction =>
      { name := "Context Introduction Images",
        description := "Real-world contexts and applications",
        aspectRatio := "16:9", width := 1920, height := 1080,
        styles := contextIntroductionStyles }

/-! ## promptBuilder.js : PromptBuilder -/

/-- Boolean test that any of the given literal keywords occurs in the string
(model of a literal-alternative regex `test`). -/
def hasAnyKeyword (s : String) (keywords : List String) : Bool :=
  keywords.any (fun k => strContainsB s k)

/-- Keyword alternatives of the `isAlgebra` regex in `_buildSubtopicPrompt`. -/
def algebraKeywords : List String :=
  ["algebra", "equation", "expression", "variable", "solve", "linear",
   "quadratic", "polynomial", "factoris", "factor", "cubic", "quartic",
   "expand", "division", "divid"]

/-- The `isAlgebra` test of `_buildSubtopicPrompt`, on the lower-cased subtopic. -/
def isAlgebraTest (lowerSubtopic : String) : Bool :=
  hasAnyKeyword lowerSubtopic algebraKeywords

/-- The `isTrig` test of `_buildSubtopicPrompt` (computed by the source but
not used in the produced prompt). -/
def isTrigTest (lowerSubtopic : String) : Bool :=
  hasAnyKeyword lowerSubtopic
    ["trigonometry", "trig", "sine", "cosine", "tangent", "hypotenuse",
     "pythagoras", "elevation", "depression", "bearing", "triangle",
     "unit circle", "degree", "radian"]

/-- Model of `PromptBuilder._buildSubtopicPrompt`. -/
def buildSubtopicPrompt (subtopic : String) (width height : Nat)
    (aspectRatio yearLevel style : String) : String :=
  let selectedStyle := subtopicCoverStyles.find? (fun s => s.id == style)
  let styleTemplate := (selectedStyle.map StyleDef.prompt_template).getD ""
  let lowerSubtopic := jsToLower subtopic
  let isAlgebra := isAlgebraTest lowerSubtopic
  let textWarning :=
    if isAlgebra then
      "ABSOLUTELY NO TEXT ALLOWED (with limited algebra exception): Use actual algebraic terms like \x273x\x27, \x274y\x27. NO words."
    else "ABSOLUTELY NO TEXT ALLOWED - ZERO TOLERANCE"
  let coreContent :=
    "\nCRITICAL TASK: Create a minimal, centered illustration representing the mathematical subtopic \"" ++ subtopic
    ++ "\" for " ++ yearLevel ++ " students.\nAspect ratio: " ++ aspectRatio
    ++ " (" ++ toString width ++ "x" ++ toString height ++ ").\n\n\n"
    ++ "**MATHEMATICAL ACCURACY IS THE #1 PRIORITY**:\n- Every element must be a direct, accurate representation of the mathematical concept.\n- Minimalism is important, but ACCURACY comes first.\n\n"
    ++ textWarning
    ++ "\n\nEXTREME SIMPLICITY:\n- Use 1-2 key elements maximum.\n- PERFECTLY CENTERED with massive margins (subject takes 15-25% of area).\n"
  coreContent ++ (if styleTemplate ≠ "" then "\n\nVISUAL STYLE:\n" ++ styleTemplate else "")

/-- Model of `PromptBuilder._buildTuteroAIPrompt`. -/
def buildTuteroAIPrompt (context : String) (width height : Nat)
    (aspectRatio style : String) : String :=
  let selectedStyle := tuteroAiStyles.find? (fun s => s.id == style)
  let styleTemplate := (selectedStyle.map StyleDef.prompt_template).getD ""
  let styleSection :=
    if style ≠ "original" ∧ styleTemplate ≠ "" then
      "PRIMARY INSTRUCTION - VISUAL STYLE:\n" ++ styleTemplate
      ++ "\n\nThis style MUST be applied to ALL elements including the character, background, and scene.\n"
    else "VISUAL STYLE: Standard 3D character style with clean rendering.\n"
  let characterInstruction :=
    if style ≠ "original" then
      "CHARACTER ADAPTATION (CRITICAL): The character must be FULLY TRANSFORMED to match the PRIMARY INSTRUCTION - VISUAL STYLE above. The character should be recognizable in shape and key features (eyes, antenna, tie) but MUST be completely rendered in the selected style (e.g., if Holographic, the robot MUST be translucent/glowing/prismatic; if Chalk, it must be a chalk drawing on slate; if Watercolor, it must have soft blended colors)."
    else "CHARACTER ACCURACY: The character must look EXACTLY like the reference images."
  let matchPriority :=
    if style ≠ "original" then
      "STYLE PRIORITY: The PRIMARY INSTRUCTION - VISUAL STYLE is the MOST IMPORTANT instruction. The reference image is ONLY for the character\x27s basic shape and key identifying features. The ENTIRE IMAGE including the character MUST follow the selected visual style."
    else "THE TIE IS MANDATORY: The character MUST wear the EXACT TIE shown in reference images."
  "\n" ++ styleSection
  ++ "\nSUBJECT: The Tutero AI robot character in a scene related to " ++ context
  ++ ".\n\nCRITICAL REQUIREMENTS:\n1. ASPECT RATIO: " ++ aspectRatio
  ++ " (" ++ toString width ++ "x" ++ toString height ++ ").\n2. "
  ++ characterInstruction ++ "\n3. " ++ matchPriority
  ++ "\n4. NO PEOPLE: This image shows ONLY the robot character.\n5. ABSOLUTE RULE: NO TEXT, LABELS, WORDS, OR LETTERS in the image.\n"

/-- Model of `PromptBuilder._buildClassroomPrompt`. -/
def buildClassroomPrompt (activity : String) (width height : Nat)
    (aspectRatio age style : String) : String :=
  let selectedStyle := classroomActivityStyles.find? (fun s => s.id == style)
  let styleTemplate := (selectedStyle.map StyleDef.prompt_template).getD ""
  let styleSection :=
    if style ≠ "original" ∧ styleTemplate ≠ "" then
      "PRIMARY INSTRUCTION - VISUAL STYLE:\n" ++ styleTemplate
      ++ "\n\nThis style MUST be applied to ALL elements including the robot character, students, classroom, and background.\n\n"
    else "VISUAL STYLE: Vibrant 3D render with clean, modern aesthetic.\n\n"
  let characterInstruction :=
    if style ≠ "original" then
      "CHARACTER DESIGN (CRITICAL): The robot character must be FULLY TRANSFORMED to match the PRIMARY INSTRUCTION - VISUAL STYLE above. The character should be recognizable in shape and key features but MUST be completely rendered in the selected style. Students and classroom elements must also follow the same visual style."
    else "CHARACTER DESIGN: Match reference images exactly."
  styleSection
  ++ "SUBJECT: The Tutero AI robot character helping students with " ++ activity
  ++ " in a modern classroom.\n        \nCRITICAL REQUIREMENTS:\n1. ASPECT RATIO: " ++ aspectRatio
  ++ " (" ++ toString width ++ "x" ++ toString height ++ ").\n2. "
  ++ characterInstruction
  ++ "\n3. PHYSICALLY PRESENT: The robot is a character in the scene, not on a screen.\n4. DIVERSE STUDENTS: 2-4 diverse students of "
  ++ age
  ++ " age.\n5. STYLE CONSISTENCY: ALL elements (robot, students, classroom) must share the same visual style.\n6. ABSOLUTE RULE: NO TEXT, LABELS, WORDS, OR LETTERS in the image.\n"

/-- The `/soccer|football(?! field)|futbol/i` test of `_getContextAccuracyRules`
on the already lower-cased context: some position starts with `soccer` or
`futbol`, or starts with `football` not followed by ` field`. -/
def soccerScan : List Char → Bool
  | [] => false
  | c :: rest =>
    if decide ("soccer".data <+: c :: rest) then true
    else if decide ("futbol".data <+: c :: rest) then true
    else if decide ("football".data <+: c :: rest)
            && !(decide (" field".data <+: (c :: rest).drop 8)) then true
    else soccerScan rest

/-- Model of `PromptBuilder._getContextAccuracyRules`. -/
def getContextAccuracyRules (context : String) : String :=
  let lowerContext := jsToLower context
  let base := "\nCONTEXT-SPECIFIC ACCURACY REQUIREMENTS:\n"
  let branch :=
    if soccerScan lowerContext.data then
      "- SOCCER ACCURACY: Show EXACTLY 2 teams with ONLY 2 distinct jersey colors/designs (one team per jersey type)\n- All players on the same team must wear IDENTICAL jerseys\n- Typical team colors: solid colors like red vs blue, white vs black, etc.\n- Include proper soccer equipment: one soccer ball, goal posts, field markings\n- NO mixing of multiple jersey designs on the same team\n"
    else if strContainsB lowerContext "basketball" then
      "- BASKETBALL ACCURACY: Show EXACTLY 2 teams with ONLY 2 distinct jersey colors\n- All players on the same team must wear IDENTICAL jerseys\n- Include proper basketball court markings, hoop, and one basketball\n- Players should be in realistic basketball poses\n"
    else if strContainsB lowerContext "baseball" then
      "- BASEBALL ACCURACY: Show EXACTLY 2 teams with ONLY 2 distinct uniform colors\n- Include proper baseball equipment: bat, ball, gloves, bases, diamond layout\n- Players should wear appropriate protective gear (helmets for batters)\n"
    else if strContainsB lowerContext "tennis" then
      "- TENNIS ACCURACY: Show 1-2 players (or 2-4 for doubles)\n- Include proper tennis court with net, lines, and tennis rackets\n- Players should be in realistic tennis poses\n"
    else if hasAnyKeyword lowerContext ["swimming", "pool"] then
      "- SWIMMING ACCURACY: Show swimmers in a pool with proper lane markings\n- Include realistic pool environment with clear water\n- Swimmers should wear appropriate swimwear and goggles\n"
    else if strContainsB lowerContext "rugby" then
      "- RUGBY ACCURACY: Show EXACTLY 2 teams with ONLY 2 distinct jersey colors\n- All players on the same team must wear IDENTICAL jerseys\n- Include proper rugby ball (oval-shaped) and field markings\n- Players should be in realistic rugby poses (scrums, tackles, running)\n"
    else if hasAnyKeyword lowerContext ["cooking", "baking", "kitchen", "chef", "recipe"] then
      "- COOKING ACCURACY: Show realistic kitchen environment with appropriate equipment\n- Include proper cooking utensils, pots, pans, or baking tools relevant to the activity\n- Ingredients should look fresh and realistic\n- Kitchen should have proper appliances (stove, oven, etc.) if visible\n"
    else if hasAnyKeyword lowerContext ["laboratory", "lab experiment", "science"] then
      "- LABORATORY ACCURACY: Show realistic lab environment with proper safety equipment\n- Include appropriate scientific instruments (beakers, test tubes, microscopes, etc.)\n- Scientists/students should wear lab coats and safety goggles when appropriate\n- Equipment should be used correctly and realistically\n"
    else if hasAnyKeyword lowerContext ["music", "orchestra", "band", "concert"] then
      "- MUSIC ACCURACY: Show realistic musical instruments held and played correctly\n- Musicians should be in proper playing positions\n- Include appropriate music setting (concert hall, practice room, etc.)\n- Instruments should be accurate to their real-world counterparts\n"
    else if hasAnyKeyword lowerContext ["classroom", "school", "students learning", "teacher"] then
      "- CLASSROOM ACCURACY: Show realistic classroom environment with desks, chairs, and board\n- Students should be diverse and engaged in appropriate learning activities\n- Include realistic educational materials (books, notebooks, pencils)\n- Classroom should have proper lighting and organization\n"
    else if hasAnyKeyword lowerContext ["construction", "building", "architect", "engineering"] then
      "- CONSTRUCTION ACCURACY: Show realistic construction site with proper safety equipment\n- Workers should wear hard hats, safety vests, and appropriate gear\n- Include realistic construction tools and machinery\n- Site should have proper safety measures visible\n"
    else if hasAnyKeyword lowerContext ["traffic", "driving", "road", "highway", "transportation"] then
      "- TRANSPORTATION ACCURACY: Show realistic vehicles with proper road markings\n- Traffic should follow logical patterns and rules\n- Include appropriate road signs and signals\n- Vehicles should be accurate to their real-world models\n"
    else if hasAnyKeyword lowerContext ["nature", "forest", "mountain", "beach", "outdoor"] then
      "- NATURE ACCURACY: Show realistic natural environment with appropriate flora and fauna\n- Landscape should have proper geological features\n- Weather and lighting should be consistent throughout the scene\n- Plants and animals should be accurate to the environment\n"
    else if hasAnyKeyword lowerContext ["shopping", "store", "retail", "supermarket", "mall"] then
      "- RETAIL ACCURACY: Show realistic store environment with proper shelving and products\n- Products should be displayed logically and organized\n- Include appropriate store fixtures (checkout counters, shopping carts, etc.)\n- Customers and staff should be in realistic shopping/working poses\n"
    else if hasAnyKeyword lowerContext ["hospital", "medical", "doctor", "nurse", "patient"] then
      "- MEDICAL ACCURACY: Show realistic medical environment with proper equipment\n- Medical staff should wear appropriate uniforms and protective gear\n- Include accurate medical instruments and furniture\n- Setting should be clean, professional, and well-organized\n"
    else ""
  base ++ branch
    ++ "- GENERAL ACCURACY: Ensure all elements in the scene are realistic, properly proportioned, and contextually appropriate\n- People should have realistic anatomy, clothing, and poses\n- Objects should be used correctly and placed logically\n- Lighting and shadows should be consistent throughout the scene\n- Colors should be natural and appropriate to the setting\n\n"

/-- Model of `PromptBuilder._buildContextPrompt`. -/
def buildContextPrompt (context : String) (width height : Nat)
    (aspectRatio style : String) : String :=
  let orientationDesc := if height < width then "LANDSCAPE" else "PORTRAIT"
  let selectedStyle := contextIntroductionStyles.find? (fun s => s.id == style)
  let styleBlock :=
    match selectedStyle with
    | some st =>
      if st.id ≠ "original" then
        "PRIMARY INSTRUCTION - VISUAL STYLE:\n" ++ st.prompt_template
        ++ "\n\nThis style MUST be applied to ALL elements in the scene.\n\n"
      else
        "PRIMARY INSTRUCTION - VISUAL STYLE (PHOTOREALISTIC):\n- Setting: Immersive, realistic environment\n- Perspective: Cinematic camera angle\n- Elements: ONLY physical objects found in this setting\n- Atmosphere: Natural lighting, atmospheric depth\n- Rendering: Photorealistic, 8k resolution, highly detailed photography\n- NO \"educational\" overlays, NO diagrams, NO text\n\nThis photorealistic style MUST be applied to ALL elements in the scene.\n\n"
    | none =>
        "PRIMARY INSTRUCTION - VISUAL STYLE (PHOTOREALISTIC):\n- Setting: Immersive, realistic environment\n- Perspective: Cinematic camera angle\n- Elements: ONLY physical objects found in this setting\n- Atmosphere: Natural lighting, atmospheric depth\n- Rendering: Photorealistic, 8k resolution, highly detailed photography\n- NO \"educational\" overlays, NO diagrams, NO text\n\nThis photorealistic style MUST be applied to ALL elements in the scene.\n\n"
  "STRICT INSTRUCTION: GENERATE AN IMAGE. DO NOT CHAT.\nSUBJECT: A scene of " ++ context
  ++ ".\n\nAspect ratio " ++ aspectRatio ++ " (" ++ toString width ++ "x" ++ toString height
  ++ ") - " ++ orientationDesc ++ " orientation.\n\n"
  ++ styleBlock
  ++ getContextAccuracyRules context
  ++ "CRITICAL - ZERO TOLERANCE FOR TEXT OR GRAPHS:\n- The output must be an image ONLY.\n- DO NOT include any text, labels, letters, or numbers in the image.\n- DO NOT include any mathematical symbols or equations.\n- DO NOT include dashed lines, arrows, or diagram elements.\n- DO NOT return a text response answering this prompt. JUST GENERATE THE IMAGE.\n\nNEGATIVE PROMPT: text, writing, words, letters, labels, captions, annotations, infographic, diagram, UI, dotted lines, arrows, math, equations, graphs, charts, watermark, signature, blurry, drawing, sketch"
  ++ (if style = "original" then ", cartoon, illustration" else "")
  ++ "\n"

/-- The `options` argument of `PromptBuilder.buildPrompt`: a JS object whose
fields may be absent (`none` models `undefined`); the destructuring defaults
of the source are applied inside `buildPrompt`. -/
structure PromptOptions where
  width : Option Nat := none
  height : Option Nat := none
  aspectRatio : Option String := none
  yearLevel : Option String := none
  style : Option String := none
  variationIndex : Option Nat := none
  totalVariations : Option Nat := none
  hasUserReferenceImages : Option Bool := none
  age : Option String := none
deriving Repr

/-- The simplified prompt that `buildPrompt` assembles inline when the user
has attached reference images (`promptBuilder.js` lines 21-49). -/
def simplifiedReferencePrompt (categoryConfig : CategoryConfig)
    (userInput style : String) : String :=
  let base :=
    "Create an image about: " ++ userInput ++ "\n\n"
    ++ "ABSOLUTE RULE: NO TEXT, LABELS, WORDS, OR LETTERS ALLOWED IN THE IMAGE.\n"
    ++ "- Do not include any written text, titles, captions, or labels\n"
    ++ "- Do not write the subject name or any descriptive words\n"
    ++ "- The image must be purely visual with zero text elements\n\n"
  let styleSection :=
    if style ≠ "" ∧ style ≠ "original" then
      match categoryConfig.styles.find? (fun s => s.id == style) with
      | some selectedStyle =>
        "PRIMARY INSTRUCTION - VISUAL STYLE: " ++ selectedStyle.name ++ "\n"
        ++ (if selectedStyle.prompt_template ≠ "" then selectedStyle.prompt_template ++ "\n" else "")
        ++ "This style MUST be applied to ALL elements in the image.\n\n"
      | none => ""
    else ""
  base ++ styleSection
  ++ "CRITICAL INSTRUCTION FOR REFERENCE IMAGES:\n"
  ++ "1. USE THE REFERENCE IMAGE FOR: The mathematical elements, diagrams, shapes, patterns, and content arrangements.\n"
  ++ "2. USE THE USER SELECTED STYLE FOR: The artistic look, rendering technique, materials, and overall aesthetic.\n"
  ++ "3. DO NOT copy the \"style\" of the reference image. Apply the \"" ++ style
  ++ "\" style to the content shown in the reference.\n"

/-- The variation suffix appended at the end of `buildPrompt` when
`variationIndex !== undefined && totalVariations > 1`. -/
def variationSuffix (options : PromptOptions) : String :=
  match options.variationIndex, options.totalVariations with
  | some i, some t =>
    if 1 < t then
      "\n\nVARIATION INSTRUCTION (" ++ toString (i + 1) ++ "/" ++ toString t ++ "):\n"
      ++ "Ensure this image has a UNIQUE composition, camera angle, or specific pose compared to other variations.\n"
    else ""
  | _, _ => ""

/-- Model of `PromptBuilder.buildPrompt`. -/
def buildPrompt (category : Category) (userInput : String)
    (options : PromptOptions) : String :=
  let categoryConfig := catConfig category
  let width := options.width.getD categoryConfig.width
  let height := options.height.getD categoryConfig.height
  let aspectRatio := options.aspectRatio.getD categoryConfig.aspectRatio
  let yearLevel := options.yearLevel.getD "Year 8"
  let style := options.style.getD "original"
  let hasUserReferenceImages := options.hasUserReferenceImages.getD false
  let age := match options.age with
    | some a => if a = "" then "middle school" else a
    | none => "middle school"
  let prompt :=
    if hasUserReferenceImages then
      simplifiedReferencePrompt categoryConfig userInput style
    else
      match category with
      | .subtopic_cover => buildSubtopicPrompt userInput width height aspectRatio yearLevel style
      | .tutero_ai => buildTuteroAIPrompt userInput width height aspectRatio style
      | .classroom_activity => buildClassroomPrompt userInput width height aspectRatio age style
      | .context_introduction => buildContextPrompt userInput width height aspectRatio style
  prompt ++ variationSuffix options

/-! ## api.js : GeminiAPI.generateImage, request side -/

/-- One element of the `content` array of the API message: either an
`image_url` part or a `text` part. -/
inductive ContentPart where
  | image (url : String)
  | text (t : String)
deriving DecidableEq, Repr

/-- The 59-character box-drawing separator line used by the reference
instructions in `api.js`. -/
def sepLine : String := String.mk (List.replicate 59 '═')

/-- The reference-handling instruction block that `generateImage` places in
front of the prompt when `userReferenceImages.length > 0`. -/
def userReferenceInstructions (systemCount userCount : Nat) : String :=
  "🚨 ABSOLUTE CRITICAL INSTRUCTION - HIGHEST PRIORITY 🚨\n\n"
  ++ (if 0 < systemCount then
        "IMAGE ORDER:\n- FIRST " ++ toString systemCount
        ++ " image(s): System references for character/style\n- LAST "
        ++ toString userCount ++ " image(s): USER REFERENCE IMAGES (MUST MATCH THESE)\n\n"
      else
        "The attached " ++ toString userCount ++ " image(s) are USER REFERENCE IMAGES.\n\n")
  ++ (sepLine ++ "\n")
  ++ "YOUR PRIMARY TASK: CREATE A SIMILAR IMAGE\n"
  ++ (sepLine ++ "\n\n")
  ++ "The user reference images show EXACTLY what the output should look like.\n"
  ++ "You are NOT creating something new - you are creating something SIMILAR.\n\n"
  ++ "MANDATORY REFERENCE GUIDELINES:\n\n"
  ++ "1. SOURCE OF TRUTH: ELEMENTS & CONTENT (From Reference)\n"
  ++ "   → EXTRACT the specific math concepts, shapes, diagrams, or patterns from the reference.\n"
  ++ "   → Maintain the element arrangement and general composition logic.\n"
  ++ "   → Ensure mathematical accuracy matches the reference.\n\n"
  ++ "2. SOURCE OF TRUTH: ARTISTIC STYLE (From User Selection/Prompt)\n"
  ++ "   → APPLY the requested artistic style (e.g., Paper-craft, 3D, Sketch) to the extracted elements.\n"
  ++ "   → IGNORE the artistic style of the reference image itself (e.g., if reference is a crude sketch but user wants \x27Glossy 3D\x27, make it Glossy 3D).\n"
  ++ "   → Transform the reference content into the target style.\n\n"
  ++ "3. COMPOSITION & ORIENTATION\n"
  ++ "   → Adapt the reference elements to fit the requested aspect ratio (Landscape/Portrait).\n"
  ++ "   → Do not blindly stretch or crop if it ruins the composition; re-arrange elements if needed.\n\n"
  ++ "4. STRICT CONTENT RULES\n"
  ++ "   → Only include elements present in or implied by the reference/description.\n"
  ++ "   → Do NOT add decorative clutter that is not in the style or reference.\n"
  ++ "⚠️ ABSOLUTE TEXT PROHIBITION:\n"
  ++ "DO NOT include any text, labels, titles, captions, or written words in the image.\n"
  ++ "The image must be purely visual. If the reference image contains text/numbers as\n"
  ++ "part of its design (like a number pattern), you may include similar visual elements,\n"
  ++ "but do NOT add new text like titles, labels, or descriptions.\n\n"
  ++ (sepLine ++ "\n\n")

/-- The `enhancedPrompt` string assembled by `generateImage` before the
text part is pushed: reference-image instructions (when any references are
attached) followed by the original prompt. -/
def enhancedPrompt (systemReferenceImages userReferenceImages : List String)
    (prompt : String) : String :=
  (if 0 < userReferenceImages.length then
     userReferenceInstructions systemReferenceImages.length userReferenceImages.length
   else if 0 < systemReferenceImages.length then
     "REFERENCE IMAGES: The attached images show the exact character design and style you must follow.\n\n"
   else "")
  ++ prompt

/-- The `content` array built by `generateImage`: one `image_url` part per
reference image (system references first, then user references, in order),
followed by one `text` part holding the enhanced prompt. -/
def generateImageContent (systemReferenceImages userReferenceImages : List String)
    (prompt : String) : List ContentPart :=
  ((systemReferenceImages ++ userReferenceImages).map ContentPart.image)
  ++ [ContentPart.text (enhancedPrompt systemReferenceImages userReferenceImages prompt)]

/-- Model of `GeminiAPI._getAspectRatioParam`: `width / height` compared against the
JS thresholds 1.3, 1.1, 0.8, 0.7, 0.6 (the float divisions are modelled by
exact rational comparisons `width * 10 > height * k`). -/
def getAspectRatioParam (width height : Nat) : String :=
  if width = 0 ∨ height = 0 then "1:1"
  else if height * 13 < width * 10 then "16:9"
  else if height * 11 < width * 10 then "4:3"
  else if height * 8 < width * 10 then "1:1"
  else if height * 7 < width * 10 then "3:4"
  else if height * 6 < width * 10 then "2:3"
  else "9:16"

/-! ## api.js : GeminiAPI.generateImage, response side -/

/-- The `image_url` object inside a response image entry. -/
structure RespImageUrl where
  url : Option String
deriving DecidableEq, Repr

/-- One entry of `choices[i].message.images`. -/
structure RespImageEntry where
  image_url : Option RespImageUrl
deriving DecidableEq, Repr

/-- The object `choices[i].message`. -/
structure RespMessage where
  images : Option (List RespImageEntry)
  content : Option String
deriving DecidableEq, Repr

/-- One entry of `data.choices`. -/
structure RespChoice where
  message : Option RespMessage
deriving DecidableEq, Repr

/-- The parsed JSON body of an OK API response (`none` fields model absent /
`undefined` JSON fields). -/
structure ApiResponse where
  choices : Option (List RespChoice)
deriving DecidableEq, Repr

/-- JS truthiness of a possibly-undefined string: `undefined` and `""` are
falsy. -/
def jsTruthy : Option String → Bool
  | some s => s ≠ ""
  | none => false

/-- The optional chain `data.choices?.[0]?.message`. -/
def firstMessage (d : ApiResponse) : Option RespMessage :=
  (d.choices.bind List.head?).bind RespChoice.message

/-- The optional chain `data.choices?.[0]?.message?.images?.[0]?.image_url?.url`. -/
def directImageUrl (d : ApiResponse) : Option String :=
  ((((firstMessage d).bind RespMessage.images).bind List.head?).bind
    RespImageEntry.image_url).bind RespImageUrl.url

/-- The optional chain `data.choices?.[0]?.message?.content`. -/
def firstContent (d : ApiResponse) : Option String :=
  (firstMessage d).bind RespMessage.content

/-- After a `![` at the current position: the lazy `.*?\]\(` part of the
markdown-image regex. Finds the closest `](` reachable without crossing a
line terminator (JS `.` does not match `\n` or `\r`) and hands the rest to
the capture scan. -/
def mdAfterBang (capture : List Char → Option String) : List Char → Option String
  | [] => none
  | c :: rest =>
    if c = '\n' ∨ c = '\r' then none
    else if c = ']' then
      match rest with
      | '(' :: rest2 => capture rest2
      | _ => mdAfterBang capture rest
    else mdAfterBang capture rest

/-- The lazy `(.*?)\)` capture of the markdown-image regex: the characters up
to the closest `)`, again without crossing a line terminator. -/
def mdCapture : List Char → Option String
  | [] => none
  | c :: rest =>
    if c = '\n' ∨ c = '\r' then none
    else if c = ')' then some ""
    else (mdCapture rest).map (fun s => String.mk (c :: s.data))

/-- Leftmost match of the JS regex `!\[.*?\]\((.*?)\)` (the markdown-image
fallback of `generateImage`): returns the first capture group. -/
def findMarkdownImage : List Char → Option String
  | [] => none
  | c :: rest =>
    match c, rest with
    | '!', '[' :: rest2 =>
      match mdAfterBang mdCapture rest2 with
      | some cap => some cap
      | none => findMarkdownImage rest
    | _, _ => findMarkdownImage rest

/-- The `imageUrl` value held after the direct extraction and the markdown
fallback of `generateImage` (still before the final `if (!imageUrl)` check). -/
def extractedImageUrl (d : ApiResponse) : Option String :=
  let direct := directImageUrl d
  if jsTruthy direct then direct
  else
    match firstContent d with
    | none => direct
    | some c =>
      if c = "" then direct
      else
        match findMarkdownImage c.data with
        | none => direct
        | some m => if m = "" then direct else some m

/-- The `if (!imageUrl)` throw block of `generateImage`: throw
`Generation failed: …` when the message carried text content (e.g. a safety
refusal), else throw `No image generated in API response`. -/
def noImageError (d : ApiResponse) : Except String String :=
  match firstContent d with
  | some tc =>
    if tc ≠ "" then .error ("Generation failed: " ++ tc)
    else .error "No image generated in API response"
  | none => .error "No image generated in API response"

/-- The tail of `generateImage` on an OK response: return the extracted URL
when it is truthy, otherwise throw. -/
def handleOkResponse (d : ApiResponse) : Except String String :=
  match extractedImageUrl d with
  | some u => if u = "" then noImageError d else .ok u
  | none => noImageError d

/-- The `error` field of a non-OK response body: a JSON string, or a JSON
object (with an optional `message` field and its stringification). -/
inductive JsonErrorField where
  | strE (s : String)
  | objE (message : Option String) (stringified : String)
deriving DecidableEq, Repr

/-- Parsed body of a non-OK response (`none` models a body that failed to
parse as JSON). -/
structure ErrorData where
  error : Option JsonErrorField
  message : Option String
deriving DecidableEq, Repr

/-- The error-message selection of `generateImage` for non-OK responses,
including the user-friendly rewrites. -/
def computeErrorMessage (status : Nat) (body : Option ErrorData) : String :=
  let base := "API request failed: " ++ toString status
  match body with
  | none => base
  | some ed =>
    let errorDotMessage : Option String :=
      match ed.error with
      | some (.objE msg _) => msg
      | _ => none
    let errorMessage :=
      if jsTruthy errorDotMessage then errorDotMessage.getD ""
      else if jsTruthy ed.message then ed.message.getD ""
      else
        match ed.error with
        | some (.strE s) => if s ≠ "" then s else base
        | some (.objE _ stringified) => stringified
        | none => base
    if strContainsB errorMessage "User not found"
        ∨ strContainsB errorMessage "Invalid API key" then
      "Wrong API Key. Enter a valid API Key"
    else if strContainsB errorMessage "insufficient credits"
        ∨ strContainsB errorMessage "quota" then
      "Insufficient credits in your OpenRouter account"
    else errorMessage

/-- Model of `GeminiAPI.generateImage` after the `fetch`: throws the computed error
message on a non-OK response, otherwise extracts the image URL from the body
or throws. -/
def generateImageResult (ok : Bool) (status : Nat) (errorBody : Option ErrorData)
    (d : ApiResponse) : Except String String :=
  if ok then handleOkResponse d
  else .error (computeErrorMessage status errorBody)

/-! ## app.js / storage.js : history state -/

/-- One generated image inside a history record: the `{ index, url }`
objects pushed by `updateResultItem`. -/
structure GenImage where
  index : Nat
  url : String
deriving DecidableEq, Repr

/-- One history record as created by `addToHistory` in `app.js`. -/
structure HistoryRecord where
  id : String
  timestamp : String
  prompt : String
  category : String
  count : Nat
  style : String
  orientation : String
  model : String
  referenceImages : List String
  images : List GenImage
deriving DecidableEq, Repr

/-- The identifiers of a list of history records. -/
def idsOf (l : List HistoryRecord) : List String := l.map HistoryRecord.id

/-- The slice of the client state that the history logic of `app.js` reads
and writes, plus the contents of the IndexedDB object store of
`storage.js` (`store`, keyed on `id`). The results grid is modelled as the
list of result slots currently in the DOM, `none` for a placeholder. -/
structure AppState where
  history : List HistoryRecord
  currentHistoryId : Option String
  generatedImages : List GenImage
  resultsGrid : List (Nat × Option String)
  store : List HistoryRecord
deriving DecidableEq, Repr

/-- Model of `HistoryStorage.saveHistory`: the object store is cleared, then every
record is added with `store.add` (which fails on a duplicate key, aborting
the transaction). `none` models the rejected promise of an aborted
transaction, in which case the store keeps its previous contents. -/
def storageSaveHistory (history : List HistoryRecord) :
    Option (List HistoryRecord) :=
  go [] history
where
  /-- Sequentially `add` each record into the cleared store. -/
  go (acc : List HistoryRecord) : List HistoryRecord → Option (List HistoryRecord)
    | [] => some acc
    | h :: t =>
      if (idsOf acc).contains h.id then none
      else go (acc ++ [h]) t

/-- Model of `saveHistory` in `app.js`: truncate the in-memory history to its first
`MAX_ITEMS = 20` records and hand them to `HistoryStorage.saveHistory`; a
rejected write is caught and leaves the persisted store unchanged. -/
def saveHistoryApp (st : AppState) : AppState :=
  match storageSaveHistory (st.history.take 20) with
  | some newStore => { st with store := newStore }
  | none => st

/-- Model of `addToHistory` in `app.js`. The `id` is
`Date.now() + Math.random().toString(36).substr(2, 9)`: a timestamp string
concatenated with a random suffix, both supplied here as inputs since they
are environment-provided. Returns the new id and the new state. -/
def addToHistory (nowMillis randSuffix timestamp prompt category : String)
    (count : Nat) (style orientation model : String)
    (referenceImages : List String) (st : AppState) : String × AppState :=
  let item : HistoryRecord :=
    { id := nowMillis ++ randSuffix
      timestamp := timestamp
      prompt := prompt
      category := category
      count := count
      style := style
      orientation := orientation
      model := model
      referenceImages := referenceImages
      images := [] }
  (item.id, saveHistoryApp { st with history := item :: st.history })

/-- Mutation through the reference returned by `Array.prototype.find`:
update the first record satisfying the predicate, leave the rest alone. -/
def updateFirst (p : HistoryRecord → Bool) (f : HistoryRecord → HistoryRecord) :
    List HistoryRecord → List HistoryRecord
  | [] => []
  | h :: t => if p h then f h :: t else h :: updateFirst p f t

/-- Model of `renderResultItem` as far as the grid model is concerned: if a slot with
this index exists in the grid, it now shows the image; otherwise nothing
happens (`if (!item) return`). -/
def renderResultItem (index : Nat) (imageUrl : String)
    (grid : List (Nat × Option String)) : List (Nat × Option String) :=
  grid.map (fun slot => if slot.1 = index then (slot.1, some imageUrl) else slot)

/-- First half of `updateResultItem` in `app.js` (its step 1): find the
history record whose id was captured when the generation started, push the
completed image onto it unless it is already there, and persist the
history. -/
def updateResultItemHistory (index : Nat) (imageUrl : String) (historyId : String)
    (st : AppState) : AppState :=
  match st.history.find? (fun h => h.id == historyId) with
  | some item =>
    let already := item.images.any (fun img => img.index == index && img.url == imageUrl)
    if already then st
    else
      saveHistoryApp
        { st with
          history :=
            updateFirst (fun h => h.id == historyId)
              (fun h => { h with images := h.images ++ [⟨index, imageUrl⟩] })
              st.history }
  | none => st

/-- Model of `updateResultItem` in `app.js`: record a completed image against the
history record whose id was captured when the generation started, persist
the history, and update the current view (step 2) only when that id is the
currently selected one. -/
def updateResultItem (index : Nat) (imageUrl : String) (historyId : String)
    (st : AppState) : AppState :=
  if imageUrl = "" then st
  else
    let st1 := updateResultItemHistory index imageUrl historyId st
    if st1.currentHistoryId == some historyId then
      let gen :=
        if st1.generatedImages.any (fun img => img.index == index) then st1.generatedImages
        else st1.generatedImages ++ [⟨index, imageUrl⟩]
      { st1 with
        generatedImages := gen
        resultsGrid := renderResultItem index imageUrl st1.resultsGrid }
    else st1

/-- Descending-timestamp comparison used by `loadHistory`
(`new Date(b.timestamp) - new Date(a.timestamp)`), modelled as the
lexicographic order on the ISO timestamp strings. -/
def tsDescB (a b : HistoryRecord) : Bool :=
  go b.timestamp.data a.timestamp.data
where
  /-- Lexicographic `xs ≤ ys` on code points. -/
  go : List Char → List Char → Bool
    | [], _ => true
    | _ :: _, [] => false
    | x :: xs, y :: ys =>
      if x.toNat < y.toNat then true
      else if y.toNat < x.toNat then false
      else go xs ys

/-- The relation form of `tsDescB` for `List.insertionSort`. -/
def tsDesc (a b : HistoryRecord) : Prop := tsDescB a b = true

instance : DecidableRel tsDesc := fun a b => by unfold tsDesc; infer_instance

/-- Model of `loadHistory` in `app.js` with `HistoryStorage.loadHistory`: read every
record of the object store, sort by timestamp descending (a stable sort, as
required of `Array.prototype.sort`), and replace the in-memory history. -/
def loadHistoryApp (st : AppState) : AppState :=
  { st with history := List.insertionSort tsDesc st.store }

/-- The dimension selection of `handleGenerate` in `app.js`: start from the
category's configured width and height and swap them when the configured
orientation disagrees with the selected one. -/
def computeDimensions (category : Category) (orientation : String) : Nat × Nat :=
  let categoryConfig := catConfig category
  let width := categoryConfig.width
  let height := categoryConfig.height
  let isCurrentlyLandscape := height < width
  let wantsLandscape := orientation == "landscape"
  if isCurrentlyLandscape && !wantsLandscape then (height, width)
  else if !isCurrentlyLandscape && wantsLandscape then (height, width)
  else (width, height)

/-- The aspect-ratio string of `handleGenerate` that is passed to the prompt
builder: `16:9` when width exceeds height, else `9:16`. -/
def aspectRatioStrOf (width height : Nat) : String :=
  if height < width then "16:9" else "9:16"

/-- One history-touching operation of `app.js`. `add` carries the
environment-provided timestamp and random suffix that make up the id. -/
inductive HistOp where
  | add (nowMillis randSuffix timestamp prompt category : String) (count : Nat)
      (style orientation model : String) (referenceImages : List String)
  | update (index : Nat) (imageUrl : String) (historyId : String)
  | save
  | load
deriving Repr

/-- Effect of one operation on the state. -/
def stepOp (st : AppState) : HistOp → AppState
  | .add nowMillis randSuffix timestamp prompt category count style orientation model refs =>
    (addToHistory nowMillis randSuffix timestamp prompt category count style
      orientation model refs st).2
  | .update index imageUrl historyId => updateResultItem index imageUrl historyId st
  | .save => saveHistoryApp st
  | .load => loadHistoryApp st

/-- Run a sequence of operations. -/
def runOps (st : AppState) : List HistOp → AppState
  | [] => st
  | op :: ops => runOps (stepOp st op) ops

/-- Along the run, every `add` generates an id that is not already in the
in-memory history (what the timestamp-plus-random id generator is meant to
guarantee). -/
def FreshRun (st : AppState) : List HistOp → Prop
  | [] => True
  | op :: ops =>
    (match op with
     | .add nowMillis randSuffix _ _ _ _ _ _ _ _ =>
       (nowMillis ++ randSuffix) ∉ idsOf st.history
     | _ => True)
    ∧ FreshRun (stepOp st op) ops

/-- The initial client state. -/
def initialState : AppState :=
  { history := [], currentHistoryId := none, generatedImages := [],
    resultsGrid := [], store := [] }

/-- Resolution of a JS `x || dflt` default on an optional string. -/
def jsOrDefault (o : Option String) (dflt : String) : String :=
  match o with
  | some a => if a = "" then dflt else a
  | none => dflt

/-- A prompt carries an explicit no-text instruction: one of the two literal
forbidding lines used across the builders. -/
def hasNoTextInstruction (p : String) : Prop :=
  strContains p "NO TEXT"
  ∨ strContains p "DO NOT include any text, labels, letters, or numbers in the image."

/-- Predicate picking out the text parts of a content array. -/
def isTextPart : ContentPart → Bool
  | .text _ => true
  | .image _ => false

/-- Two `addToHistory` calls whose environment-provided timestamp and
random suffix coincide (`Date.now()` in the same millisecond and the same
`Math.random()` draw). -/
def collidingOps : List HistOp :=
  [.add "100" "abc" "t1" "prompt" "tutero_ai" 1 "original" "landscape" "m" [],
   .add "100" "abc" "t2" "prompt" "tutero_ai" 1 "original" "landscape" "m" []]

/-- Two `addToHistory` calls with distinct generated identifiers. -/
def freshOps : List HistOp :=
  [.add "100" "aaa" "t1" "prompt" "tutero_ai" 1 "original" "landscape" "m" [],
   .add "101" "bbb" "t2" "prompt" "tutero_ai" 1 "original" "landscape" "m" []]

/-- A one-record history used to exercise `updateResultItem`. -/
def c2record : HistoryRecord :=
  { id := "hid", timestamp := "2024-01-01T00:00:00.000Z", prompt := "p",
    category := "tutero_ai", count := 1, style := "original",
    orientation := "landscape", model := "m", referenceImages := [],
    images := [] }

/-- A state currently viewing a different record than `c2record`. -/
def c2state : AppState :=
  { history := [c2record], currentHistoryId := some "other",
    generatedImages := [], resultsGrid := [], store := [] }

/-- An image URL can be extracted from an OK response body: either the
direct `choices[0].message.images[0].image_url.url` field is a non-empty
string, or the message content holds a markdown image link with a non-empty
target. -/
def imageUrlExtractable (d : ApiResponse) : Prop :=
  jsTruthy (directImageUrl d) = true
  ∨ (∃ c, firstContent d = some c ∧ c ≠ ""
      ∧ ∃ m, findMarkdownImage c.data = some m ∧ m ≠ "")

/-- A concrete OK response carrying a direct image URL. -/
def c10resp : ApiResponse :=
  { choices := some [⟨some ⟨some [⟨some ⟨some "http://img"⟩⟩], none⟩⟩] }

/-! ## General lemmas about substring containment -/

theorem strContains_refl (s : String) : strContains s s :=
  List.infix_refl s.data

theorem strContains_append_left {s : String} (pat t : String)
    (h : strContains s pat) : strContains (s ++ t) pat := by
  unfold strContains at h ⊢
  rw [String.data_append]
  exact h.trans ⟨[], t.data, by simp⟩

theorem strContains_append_right {t : String} (pat s : String)
    (h : strContains t pat) : strContains (s ++ t) pat := by
  unfold strContains at h ⊢
  rw [String.data_append]
  exact h.trans ⟨s.data, [], by simp⟩

theorem strContains_headChunk (x y : String) : strContains (x ++ y) x :=
  strContains_append_left x y (strContains_refl x)

/-! ## Theorems -/

/-- C1: when the user has attached reference images, `buildPrompt` returns
the simplified reference-image prompt (plus the variation suffix) and none
of the category-specific templates; otherwise the prompt comes from the
builder specific to the selected category. -/
theorem buildPrompt_reference_branch (category : Category) (userInput : String)
    (options : PromptOptions) :
    (options.hasUserReferenceImages.getD false = true →
      buildPrompt category userInput options =
        simplifiedReferencePrompt (catConfig category) userInput
          (options.style.getD "original") ++ variationSuffix options)
    ∧ (options.hasUserReferenceImages.getD false = false →
      buildPrompt category userInput options =
        (match category with
         | .subtopic_cover =>
             buildSubtopicPrompt userInput
               (options.width.getD (catConfig category).width)
               (options.height.getD (catConfig category).height)
               (options.aspectRatio.getD (catConfig category).aspectRatio)
               (options.yearLevel.getD "Year 8") (options.style.getD "original")
         | .tutero_ai =>
             buildTuteroAIPrompt userInput
               (options.width.getD (catConfig category).width)
               (options.height.getD (catConfig category).height)
               (options.aspectRatio.getD (catConfig category).aspectRatio)
               (options.style.getD "original")
         | .classroom_activity =>
             buildClassroomPrompt userInput
               (options.width.getD (catConfig category).width)
               (options.height.getD (catConfig category).height)
               (options.aspectRatio.getD (catConfig category).aspectRatio)
               (jsOrDefault options.age "middle school")
               (options.style.getD "original")
         | .context_introduction =>
             buildContextPrompt userInput
               (options.width.getD (catConfig category).width)
               (options.height.getD (catConfig category).height)
               (options.aspectRatio.getD (catConfig category).aspectRatio)
               (options.style.getD "original"))
        ++ variationSuffix options) := by
  constructor <;> intro h <;> cases category <;>
    simp [buildPrompt, h, jsOrDefault]

/-- Witness for `buildPrompt_reference_branch` at a concrete request. -/
theorem buildPrompt_reference_branch_witness :
    buildPrompt .subtopic_cover "Fractions"
        { hasUserReferenceImages := some true, style := some "glossy_3d" } =
      simplifiedReferencePrompt (catConfig .subtopic_cover) "Fractions" "glossy_3d"
        ++ variationSuffix { hasUserReferenceImages := some true, style := some "glossy_3d" } :=
  (buildPrompt_reference_branch .subtopic_cover "Fractions"
    { hasUserReferenceImages := some true, style := some "glossy_3d" }).1 rfl

set_option maxRecDepth 8192 in
theorem simplified_hasNoText (cfg : CategoryConfig) (input style : String) :
    strContains (simplifiedReferencePrompt cfg input style) "NO TEXT" := by
  simp only [simplifiedReferencePrompt]
  apply strContains_append_left
  apply strContains_append_left
  apply strContains_append_left
  apply strContains_append_left
  apply strContains_append_left
  apply strContains_append_left
  apply strContains_append_left
  apply strContains_append_left
  apply strContains_append_left
  apply strContains_append_left
  apply strContains_append_right
  decide

set_option maxRecDepth 8192 in
theorem subtopic_hasNoText (input : String) (w h : Nat) (ar yl style : String) :
    strContains (buildSubtopicPrompt input w h ar yl style) "NO TEXT" := by
  simp only [buildSubtopicPrompt]
  apply strContains_append_left
  apply strContains_append_left
  apply strContains_append_right
  split <;> decide

set_option maxRecDepth 8192 in
theorem tutero_hasNoText (input : String) (w h : Nat) (ar style : String) :
    strContains (buildTuteroAIPrompt input w h ar style) "NO TEXT" := by
  simp only [buildTuteroAIPrompt]
  apply strContains_append_right
  decide

set_option maxRecDepth 8192 in
theorem classroom_hasNoText (input : String) (w h : Nat) (ar age style : String) :
    strContains (buildClassroomPrompt input w h ar age style) "NO TEXT" := by
  simp only [buildClassroomPrompt]
  apply strContains_append_right
  decide

set_option maxRecDepth 8192 in
theorem context_hasNoText (input : String) (w h : Nat) (ar style : String) :
    strContains (buildContextPrompt input w h ar style)
      "DO NOT include any text, labels, letters, or numbers in the image." := by
  simp only [buildContextPrompt]
  apply strContains_append_left
  apply strContains_append_left
  apply strContains_append_right
  decide

/-- C8: every prompt produced by `buildPrompt` — the simplified reference
prompt as well as each of the four category builders — contains an explicit
no-text instruction, for every category, user input, style and
reference-image flag. -/
theorem buildPrompt_always_no_text (category : Category) (userInput : String)
    (options : PromptOptions) :
    hasNoTextInstruction (buildPrompt category userInput options) := by
  simp only [buildPrompt]
  have hsuffix : ∀ s : String, hasNoTextInstruction s →
      hasNoTextInstruction (s ++ variationSuffix options) := fun s h =>
    h.imp (strContains_append_left _ _) (strContains_append_left _ _)
  apply hsuffix
  split
  · exact Or.inl (simplified_hasNoText _ _ _)
  · cases category
    · exact Or.inl (subtopic_hasNoText _ _ _ _ _ _)
    · exact Or.inl (tutero_hasNoText _ _ _ _ _)
    · exact Or.inl (classroom_hasNoText _ _ _ _ _ _)
    · exact Or.inr (context_hasNoText _ _ _ _ _)

theorem strAppend_empty (a : String) : a ++ "" = a := by
  apply String.ext
  have hemp : ("" : String).data = [] := rfl
  simp [String.data_append, hemp]

theorem styles_find_of_mem {l : List StyleDef} {st : StyleDef} {style : String}
    (hnd : (l.map StyleDef.id).Nodup) (hmem : st ∈ l) (hid : st.id = style) :
    l.find? (fun s => s.id == style) = some st := by
  induction l with
  | nil => cases hmem
  | cons h t ih =>
    simp only [List.map_cons, List.nodup_cons] at hnd
    rcases List.mem_cons.mp hmem with rfl | hmem'
    · simp [List.find?, hid]
    · have hne : h.id ≠ style := by
        intro he
        apply hnd.1
        have hmm : st.id ∈ List.map StyleDef.id t :=
          List.mem_map_of_mem StyleDef.id hmem'
        rw [hid, ← he] at hmm
        exact hmm
      have hbeq : (h.id == style) = false := beq_eq_false_iff_ne.mpr hne
      simp [List.find?, hbeq, ih hnd.2 hmem']

theorem catStyles_nodup (c : Category) :
    (((catConfig c).styles.map StyleDef.id)).Nodup := by
  cases c <;> decide

theorem catStyles_template_nonempty (c : Category) :
    ∀ st ∈ (catConfig c).styles, st.id ≠ "original" → st.prompt_template ≠ "" := by
  cases c <;> decide

theorem catStyles_id_nonempty (c : Category) :
    ∀ st ∈ (catConfig c).styles, st.id ≠ "" := by
  cases c <;> decide

set_option maxRecDepth 8192 in
theorem simplified_contains_style (cfg : CategoryConfig) (input style : String)
    (st : StyleDef) (h1 : style ≠ "") (h2 : style ≠ "original")
    (hfind : cfg.styles.find? (fun s => s.id == style) = some st)
    (h3 : st.prompt_template ≠ "") :
    strContains (simplifiedReferencePrompt cfg input style)
        ("PRIMARY INSTRUCTION - VISUAL STYLE: " ++ st.name)
    ∧ strContains (simplifiedReferencePrompt cfg input style) st.prompt_template
    ∧ strContains (simplifiedReferencePrompt cfg input style)
        "CRITICAL INSTRUCTION FOR REFERENCE IMAGES:" := by
  simp only [simplifiedReferencePrompt, h1, h2, hfind, h3, ne_eq,
    not_false_eq_true, and_self, if_true, if_pos]
  refine ⟨?_, ?_, ?_⟩
  · apply strContains_append_left
    apply strContains_append_left
    apply strContains_append_left
    apply strContains_append_left
    apply strContains_append_left
    apply strContains_append_left
    apply strContains_append_right
    apply strContains_append_left
    apply strContains_append_left
    apply strContains_append_left
    exact strContains_refl _
  · apply strContains_append_left
    apply strContains_append_left
    apply strContains_append_left
    apply strContains_append_left
    apply strContains_append_left
    apply strContains_append_left
    apply strContains_append_right
    apply strContains_append_left
    apply strContains_append_right
    exact strContains_headChunk _ _
  · apply strContains_append_left
    apply strContains_append_left
    apply strContains_append_left
    apply strContains_append_left
    apply strContains_append_left
    apply strContains_append_right
    decide

theorem simplified_no_style (cfg : CategoryConfig) (input style : String)
    (hor : style = "original"
      ∨ cfg.styles.find? (fun s => s.id == style) = none) :
    simplifiedReferencePrompt cfg input style =
      "Create an image about: " ++ input ++ "\n\n"
      ++ "ABSOLUTE RULE: NO TEXT, LABELS, WORDS, OR LETTERS ALLOWED IN THE IMAGE.\n"
      ++ "- Do not include any written text, titles, captions, or labels\n"
      ++ "- Do not write the subject name or any descriptive words\n"
      ++ "- The image must be purely visual with zero text elements\n\n"
      ++ "CRITICAL INSTRUCTION FOR REFERENCE IMAGES:\n"
      ++ "1. USE THE REFERENCE IMAGE FOR: The mathematical elements, diagrams, shapes, patterns, and content arrangements.\n"
      ++ "2. USE THE USER SELECTED STYLE FOR: The artistic look, rendering technique, materials, and overall aesthetic.\n"
      ++ "3. DO NOT copy the \"style\" of the reference image. Apply the \"" ++ style
      ++ "\" style to the content shown in the reference.\n" := by
  rcases hor with h | h
  · subst h
    simp only [simplifiedReferencePrompt]
    rw [if_neg (by simp), strAppend_empty]
  · simp only [simplifiedReferencePrompt, h]
    rw [ite_self, strAppend_empty]

/-- C4: with user reference images attached, a non-`original` selected style
that appears in the category's configured style list contributes its name
and its prompt template to the simplified prompt, alongside the
reference-image instruction block; when the selected style is `original` or
absent from the category's list, the simplified prompt has no style
section. -/
theorem simplified_style_selection (category : Category) (userInput style : String) :
    (∀ st ∈ (catConfig category).styles, st.id = style → style ≠ "original" →
      strContains (simplifiedReferencePrompt (catConfig category) userInput style)
          ("PRIMARY INSTRUCTION - VISUAL STYLE: " ++ st.name)
      ∧ strContains (simplifiedReferencePrompt (catConfig category) userInput style)
          st.prompt_template
      ∧ strContains (simplifiedReferencePrompt (catConfig category) userInput style)
          "CRITICAL INSTRUCTION FOR REFERENCE IMAGES:")
    ∧ ((style = "original"
        ∨ (catConfig category).styles.find? (fun s => s.id == style) = none) →
      simplifiedReferencePrompt (catConfig category) userInput style =
        "Create an image about: " ++ userInput ++ "\n\n"
        ++ "ABSOLUTE RULE: NO TEXT, LABELS, WORDS, OR LETTERS ALLOWED IN THE IMAGE.\n"
        ++ "- Do not include any written text, titles, captions, or labels\n"
        ++ "- Do not write the subject name or any descriptive words\n"
        ++ "- The image must be purely visual with zero text elements\n\n"
        ++ "CRITICAL INSTRUCTION FOR REFERENCE IMAGES:\n"
        ++ "1. USE THE REFERENCE IMAGE FOR: The mathematical elements, diagrams, shapes, patterns, and content arrangements.\n"
        ++ "2. USE THE USER SELECTED STYLE FOR: The artistic look, rendering technique, materials, and overall aesthetic.\n"
        ++ "3. DO NOT copy the \"style\" of the reference image. Apply the \"" ++ style
        ++ "\" style to the content shown in the reference.\n") := by
  refine ⟨fun st hmem hid hne => ?_, fun hor => simplified_no_style _ _ _ hor⟩
  have hnd := catStyles_nodup category
  have hfind := styles_find_of_mem hnd hmem hid
  have hidne : st.id ≠ "original" := hid ▸ hne
  have h3 := catStyles_template_nonempty category st hmem hidne
  have h1 : style ≠ "" := hid ▸ catStyles_id_nonempty category st hmem
  exact simplified_contains_style _ _ _ _ h1 hne hfind h3

/-- Witness for `simplified_style_selection`: the `cartoon` style of the
context-introduction category. -/
theorem simplified_style_selection_witness :
    strContains (simplifiedReferencePrompt (catConfig .context_introduction)
        "a basketball game" "cartoon")
      ("PRIMARY INSTRUCTION - VISUAL STYLE: " ++ "Cartoon") :=
  ((simplified_style_selection .context_introduction "a basketball game" "cartoon").1
    ⟨"cartoon", "Cartoon", "Vibrant 2D detailed cartoon",
      "Style: Cartoon. Create a high-quality, vibrant 2D cartoon illustration. Bold lines, bright colors, clear forms. Detailed and engaging. CRITICAL: NO text."⟩
    (List.mem_cons_of_mem _ (List.mem_cons_self _ _)) rfl (by decide)).1

/-- C5: the message content lists the system reference images first, then
the user reference images, then exactly one text part; with user reference
images attached, that text part begins with the reference-handling
instructions (which state the image order when system references are also
present) before the assembled prompt. -/
theorem generateImageContent_structure (sys usr : List String) (prompt : String) :
    generateImageContent sys usr prompt =
      sys.map ContentPart.image ++ usr.map ContentPart.image
        ++ [ContentPart.text (enhancedPrompt sys usr prompt)]
    ∧ (generateImageContent sys usr prompt).countP isTextPart = 1
    ∧ (usr ≠ [] →
        enhancedPrompt sys usr prompt =
          userReferenceInstructions sys.length usr.length ++ prompt
        ∧ (sys ≠ [] →
            strContains (userReferenceInstructions sys.length usr.length)
              "IMAGE ORDER:")) := by
  refine ⟨?_, ?_, fun husr => ⟨?_, fun hsys => ?_⟩⟩
  · simp [generateImageContent, List.append_assoc]
  · have himg : ∀ l : List String,
        (l.map ContentPart.image).countP isTextPart = 0 := by
      intro l
      induction l with
      | nil => rfl
      | cons a t ih => simp [List.countP_cons, isTextPart, ih]
    simp [generateImageContent, List.countP_append, himg, List.countP_cons,
      isTextPart]
  · simp [enhancedPrompt, List.length_pos.mpr husr]
  · simp only [userReferenceInstructions]
    apply strContains_append_left
    apply strContains_append_left
    apply strContains_append_left
    apply strContains_append_left
    apply strContains_append_left
    apply strContains_append_left
    apply strContains_append_left
    apply strContains_append_left
    apply strContains_append_left
    apply strContains_append_left
    apply strContains_append_left
    apply strContains_append_left
    apply strContains_append_left
    apply strContains_append_left
    apply strContains_append_left
    apply strContains_append_left
    apply strContains_append_left
    apply strContains_append_left
    apply strContains_append_left
    apply strContains_append_left
    apply strContains_append_left
    apply strContains_append_left
    apply strContains_append_left
    apply strContains_append_left
    apply strContains_append_left
    apply strContains_append_left
    apply strContains_append_right
    rw [if_pos (List.length_pos.mpr hsys)]
    apply strContains_append_left
    apply strContains_append_left
    apply strContains_append_left
    apply strContains_append_left
    decide

/-- Witness for `generateImageContent_structure` at a request with one
system and one user reference image. -/
theorem generateImageContent_structure_witness :
    enhancedPrompt ["s"] ["u"] "P" = userReferenceInstructions 1 1 ++ "P"
    ∧ strContains (userReferenceInstructions 1 1) "IMAGE ORDER:" :=
  ⟨((generateImageContent_structure ["s"] ["u"] "P").2.2 (by decide)).1,
   ((generateImageContent_structure ["s"] ["u"] "P").2.2 (by decide)).2 (by decide)⟩

/-- C6 fails on the code: with a reference image attached, the text part of
the payload is the enhanced prompt, which differs from the assembled
prompt. Here one system reference image is attached, the reference note is
prepended, and the single text part is not the assembled prompt `P`. -/
theorem enhancedPrompt_ne_prompt :
    (generateImageContent ["s"] [] "P").getLast? ≠ some (ContentPart.text "P")
    ∧ enhancedPrompt ["s"] [] "P" ≠ "P" := by
  constructor <;> decide

theorem strAppend_left_eq_empty {a b : String} (h : a ++ b = b) : a = "" := by
  have hlen : a.data.length + b.data.length = b.data.length := by
    have hd := congrArg (fun s : String => s.data.length) h
    simpa [String.data_append] using hd
  have ha : a.data.length = 0 := by omega
  apply String.ext
  have hemp : ("" : String).data = [] := rfl
  rw [hemp]
  exact List.length_eq_zero.mp ha

theorem strAppend_eq_empty_right {a b : String} (h : a ++ b = "") : b = "" := by
  have hd := congrArg String.data h
  have hemp : ("" : String).data = [] := rfl
  rw [String.data_append, hemp] at hd
  apply String.ext
  rw [hemp]
  exact (List.append_eq_nil.mp hd).2

theorem userReferenceInstructions_ne_empty (n m : Nat) :
    userReferenceInstructions n m ≠ "" := by
  intro h
  simp only [userReferenceInstructions] at h
  have h1 := strAppend_eq_empty_right h
  have h2 := strAppend_eq_empty_right h1
  exact absurd h2 (by decide)

/-- C6 amended: the single text part of the request payload is the
assembled prompt with reference-handling instructions prepended — the
user-reference instruction block when user reference images are attached,
otherwise the system-reference note when only system reference images are
attached — and it equals the assembled prompt exactly when no reference
images of either kind are attached. -/
theorem enhancedPrompt_structure (sys usr : List String) (prompt : String) :
    (generateImageContent sys usr prompt).getLast? =
      some (ContentPart.text (enhancedPrompt sys usr prompt))
    ∧ (usr ≠ [] →
        enhancedPrompt sys usr prompt =
          userReferenceInstructions sys.length usr.length ++ prompt)
    ∧ (usr = [] → sys ≠ [] →
        enhancedPrompt sys usr prompt =
          "REFERENCE IMAGES: The attached images show the exact character design and style you must follow.\n\n"
            ++ prompt)
    ∧ (enhancedPrompt sys usr prompt = prompt ↔ (sys = [] ∧ usr = [])) := by
  have husr : usr ≠ [] →
      enhancedPrompt sys usr prompt =
        userReferenceInstructions sys.length usr.length ++ prompt := fun hu => by
    simp [enhancedPrompt, List.length_pos.mpr hu]
  have hsys : usr = [] → sys ≠ [] →
      enhancedPrompt sys usr prompt =
        "REFERENCE IMAGES: The attached images show the exact character design and style you must follow.\n\n"
          ++ prompt := fun hu hs => by
    subst hu
    simp [enhancedPrompt, List.length_pos.mpr hs]
  refine ⟨?_, husr, hsys, ?_, ?_⟩
  · simp [generateImageContent]
  · intro heq
    by_cases hu : usr = []
    · by_cases hs : sys = []
      · exact ⟨hs, hu⟩
      · rw [hsys hu hs] at heq
        exact absurd (strAppend_left_eq_empty heq) (by decide)
    · rw [husr hu] at heq
      exact absurd (strAppend_left_eq_empty heq)
        (userReferenceInstructions_ne_empty _ _)
  · rintro ⟨hs, hu⟩
    simp [enhancedPrompt, hs, hu]

/-- Witness for `enhancedPrompt_structure`: with no references attached the
text part is exactly the assembled prompt, and with references attached it
is the user-reference instruction block followed by the prompt. -/
theorem enhancedPrompt_structure_witness :
    enhancedPrompt [] [] "Some prompt" = "Some prompt"
    ∧ enhancedPrompt ["s"] ["u"] "Q" = userReferenceInstructions 1 1 ++ "Q" :=
  ⟨(enhancedPrompt_structure [] [] "Some prompt").2.2.2.mpr ⟨rfl, rfl⟩,
   (enhancedPrompt_structure ["s"] ["u"] "Q").2.1 (by decide)⟩

/-- C7: the dimensions sent to the API are the category's configured ones,
swapped exactly when the configured orientation disagrees with the selected
one, so width exceeds height exactly for the `landscape` selection; and the
aspect-ratio string placed into the prompt is `16:9` for landscape and
`9:16` otherwise. -/
theorem computeDimensions_orientation (category : Category) (orientation : String) :
    ((computeDimensions category orientation).2 < (computeDimensions category orientation).1
      ↔ orientation = "landscape")
    ∧ computeDimensions category orientation =
        (if ((catConfig category).height < (catConfig category).width)
            ↔ (orientation = "landscape") then
          ((catConfig category).width, (catConfig category).height)
        else ((catConfig category).height, (catConfig category).width))
    ∧ aspectRatioStrOf (computeDimensions category orientation).1
        (computeDimensions category orientation).2 =
        (if orientation = "landscape" then "16:9" else "9:16") := by
  by_cases h : orientation = "landscape" <;>
    cases category <;>
    simp [computeDimensions, aspectRatioStrOf, catConfig, h]

/-! ## History-store lemmas -/

theorem idsOf_append (a b : List HistoryRecord) :
    idsOf (a ++ b) = idsOf a ++ idsOf b := by
  simp [idsOf]

theorem storageSave_go_of_nodup :
    ∀ (hs acc : List HistoryRecord), (idsOf (acc ++ hs)).Nodup →
      storageSaveHistory.go acc hs = some (acc ++ hs) := by
  intro hs
  induction hs with
  | nil => intro acc _h; simp [storageSaveHistory.go]
  | cons hd tl ih =>
    intro acc h
    have h' : (idsOf acc ++ hd.id :: idsOf tl).Nodup := by
      simpa [idsOf] using h
    rw [List.nodup_append] at h'
    have hnotin : hd.id ∉ idsOf acc := fun hmem =>
      h'.2.2 hmem (List.mem_cons_self _ _)
    have hcontains : (idsOf acc).contains hd.id = false := by
      simpa using hnotin
    have hnd2 : (idsOf ((acc ++ [hd]) ++ tl)).Nodup := by
      have : (acc ++ [hd]) ++ tl = acc ++ hd :: tl := by simp
      rw [this]
      exact h
    have := ih (acc ++ [hd]) hnd2
    simp only [storageSaveHistory.go, hcontains, Bool.false_eq_true, if_false]
    rw [this]
    simp

theorem storageSave_go_nodup :
    ∀ (hs acc ns : List HistoryRecord), (idsOf acc).Nodup →
      storageSaveHistory.go acc hs = some ns → (idsOf ns).Nodup := by
  intro hs
  induction hs with
  | nil =>
    intro acc ns h hgo
    simp [storageSaveHistory.go] at hgo
    exact hgo ▸ h
  | cons hd tl ih =>
    intro acc ns h hgo
    simp only [storageSaveHistory.go] at hgo
    split at hgo
    · cases hgo
    · rename_i hcond
      have hnotin : hd.id ∉ idsOf acc := by simpa using hcond
      refine ih (acc ++ [hd]) ns ?_ hgo
      rw [idsOf_append]
      refine List.Nodup.append h (by simp [idsOf]) ?_
      intro a ha hb
      have ha' : a = hd.id := by simpa [idsOf] using hb
      subst ha'
      exact hnotin ha

theorem storageSaveHistory_of_nodup (hs : List HistoryRecord)
    (h : (idsOf hs).Nodup) : storageSaveHistory hs = some hs := by
  have := storageSave_go_of_nodup hs [] (by simpa using h)
  simpa [storageSaveHistory] using this

theorem storageSaveHistory_nodup (hs ns : List HistoryRecord)
    (h : storageSaveHistory hs = some ns) : (idsOf ns).Nodup :=
  storageSave_go_nodup hs [] ns (by simp [idsOf]) h

theorem saveHistoryApp_history (st : AppState) :
    (saveHistoryApp st).history = st.history := by
  unfold saveHistoryApp
  split <;> rfl

theorem saveHistoryApp_currentHistoryId (st : AppState) :
    (saveHistoryApp st).currentHistoryId = st.currentHistoryId := by
  unfold saveHistoryApp
  split <;> rfl

theorem saveHistoryApp_generatedImages (st : AppState) :
    (saveHistoryApp st).generatedImages = st.generatedImages := by
  unfold saveHistoryApp
  split <;> rfl

theorem saveHistoryApp_resultsGrid (st : AppState) :
    (saveHistoryApp st).resultsGrid = st.resultsGrid := by
  unfold saveHistoryApp
  split <;> rfl

theorem saveHistoryApp_store_nodup (st : AppState)
    (h : (idsOf st.store).Nodup) : (idsOf (saveHistoryApp st).store).Nodup := by
  unfold saveHistoryApp
  cases heq : storageSaveHistory (st.history.take 20) with
  | none => simpa using h
  | some ns =>
    simpa using storageSaveHistory_nodup _ ns heq

theorem idsOf_updateFirst (p : HistoryRecord → Bool)
    (f : HistoryRecord → HistoryRecord) (hf : ∀ h, (f h).id = h.id) :
    ∀ l, idsOf (updateFirst p f l) = idsOf l := by
  intro l
  induction l with
  | nil => rfl
  | cons hd tl ih =>
    unfold updateFirst
    split
    · simp [idsOf, hf]
    · simpa [idsOf] using ih

theorem find?_updateFirst (p : HistoryRecord → Bool)
    (f : HistoryRecord → HistoryRecord) (r : HistoryRecord)
    (hpf : p (f r) = true) :
    ∀ l, l.find? p = some r → (updateFirst p f l).find? p = some (f r) := by
  intro l
  induction l with
  | nil => intro h; cases h
  | cons hd tl ih =>
    intro hfind
    by_cases hp : p hd = true
    · rw [List.find?_cons_of_pos _ hp] at hfind
      injection hfind with he
      subst he
      unfold updateFirst
      rw [if_pos hp]
      exact List.find?_cons_of_pos _ hpf
    · have hp' : ¬ p hd = true := hp
      rw [List.find?_cons_of_neg _ hp'] at hfind
      unfold updateFirst
      rw [if_neg hp']
      rw [List.find?_cons_of_neg _ hp']
      exact ih hfind

/-- C9: saving history persists at most the 20 most recent records:
`saveHistory` truncates the in-memory list to its first 20 elements and the
storage write replaces the whole persisted store with exactly those
records, so records beyond the first 20 are dropped from persistent
storage. -/
theorem saveHistory_truncates (st : AppState)
    (h : (idsOf (st.history.take 20)).Nodup) :
    (saveHistoryApp st).store = st.history.take 20
    ∧ (saveHistoryApp st).store.length ≤ 20
    ∧ ∀ r ∈ (saveHistoryApp st).store, r ∈ st.history.take 20 := by
  have hsome : storageSaveHistory (st.history.take 20) = some (st.history.take 20) :=
    storageSaveHistory_of_nodup _ h
  have hstore : (saveHistoryApp st).store = st.history.take 20 := by
    unfold saveHistoryApp
    rw [hsome]
  refine ⟨hstore, ?_, ?_⟩
  · rw [hstore]
    exact List.length_take_le 20 st.history
  · intro r hr
    rw [hstore] at hr
    exact hr

/-- Witness for `saveHistory_truncates`: a history of 21 records persists
as exactly its first 20. -/
theorem saveHistory_truncates_witness :
    (saveHistoryApp
      { history := (List.range 21).map (fun n =>
          { id := toString n, timestamp := "", prompt := "", category := "",
            count := 0, style := "", orientation := "", model := "",
            referenceImages := [], images := [] }),
        currentHistoryId := none, generatedImages := [], resultsGrid := [],
        store := [] }).store =
      ((List.range 21).map (fun n =>
          ({ id := toString n, timestamp := "", prompt := "", category := "",
             count := 0, style := "", orientation := "", model := "",
             referenceImages := [], images := [] } : HistoryRecord))).take 20 :=
  (saveHistory_truncates _ (by decide)).1

theorem urih_history_ids (index : Nat) (url hid : String) (st : AppState) :
    idsOf (updateResultItemHistory index url hid st).history = idsOf st.history := by
  unfold updateResultItemHistory
  cases hf : st.history.find? (fun h => h.id == hid) with
  | none => rfl
  | some item =>
    simp only
    split
    · rfl
    · rw [saveHistoryApp_history]
      exact idsOf_updateFirst (fun h => h.id == hid)
        (fun h => { h with images := h.images ++ [⟨index, url⟩] })
        (fun _ => rfl) st.history

theorem urih_currentHistoryId (index : Nat) (url hid : String) (st : AppState) :
    (updateResultItemHistory index url hid st).currentHistoryId = st.currentHistoryId := by
  unfold updateResultItemHistory
  cases hf : st.history.find? (fun h => h.id == hid) with
  | none => rfl
  | some item =>
    simp only
    split
    · rfl
    · rw [saveHistoryApp_currentHistoryId]

theorem urih_generatedImages (index : Nat) (url hid : String) (st : AppState) :
    (updateResultItemHistory index url hid st).generatedImages = st.generatedImages := by
  unfold updateResultItemHistory
  cases hf : st.history.find? (fun h => h.id == hid) with
  | none => rfl
  | some item =>
    simp only
    split
    · rfl
    · rw [saveHistoryApp_generatedImages]

theorem urih_resultsGrid (index : Nat) (url hid : String) (st : AppState) :
    (updateResultItemHistory index url hid st).resultsGrid = st.resultsGrid := by
  unfold updateResultItemHistory
  cases hf : st.history.find? (fun h => h.id == hid) with
  | none => rfl
  | some item =>
    simp only
    split
    · rfl
    · rw [saveHistoryApp_resultsGrid]

theorem urih_store_nodup (index : Nat) (url hid : String) (st : AppState)
    (h : (idsOf st.store).Nodup) :
    (idsOf (updateResultItemHistory index url hid st).store).Nodup := by
  unfold updateResultItemHistory
  cases hf : st.history.find? (fun h => h.id == hid) with
  | none => exact h
  | some item =>
    simp only
    split
    · exact h
    · exact saveHistoryApp_store_nodup _ h

theorem updateResultItem_history_ids (index : Nat) (url hid : String) (st : AppState) :
    idsOf (updateResultItem index url hid st).history = idsOf st.history := by
  unfold updateResultItem
  split
  · rfl
  · simp only
    split
    · exact urih_history_ids index url hid st
    · exact urih_history_ids index url hid st

theorem updateResultItem_store_nodup (index : Nat) (url hid : String) (st : AppState)
    (h : (idsOf st.store).Nodup) :
    (idsOf (updateResultItem index url hid st).store).Nodup := by
  unfold updateResultItem
  split
  · exact h
  · simp only
    split
    · exact urih_store_nodup index url hid st h
    · exact urih_store_nodup index url hid st h

theorem stepOp_store_nodup (st : AppState) (op : HistOp)
    (h : (idsOf st.store).Nodup) : (idsOf (stepOp st op).store).Nodup := by
  cases op with
  | add now rand ts p c cnt sty ori mdl refs =>
    exact saveHistoryApp_store_nodup _ h
  | update i u hid => exact updateResultItem_store_nodup i u hid st h
  | save => exact saveHistoryApp_store_nodup _ h
  | load => exact h

theorem stepOp_history_nodup (st : AppState) (op : HistOp)
    (hh : (idsOf st.history).Nodup) (hs : (idsOf st.store).Nodup)
    (hfr : match op with
           | .add now rand _ _ _ _ _ _ _ _ => (now ++ rand) ∉ idsOf st.history
           | _ => True) :
    (idsOf (stepOp st op).history).Nodup := by
  cases op with
  | add now rand ts p c cnt sty ori mdl refs =>
    simp only [stepOp, addToHistory]
    rw [saveHistoryApp_history]
    simp only [idsOf, List.map_cons]
    exact List.Nodup.cons (by simpa [idsOf] using hfr) hh
  | update i u hid =>
    simpa [stepOp, updateResultItem_history_ids] using hh
  | save => simpa [stepOp, saveHistoryApp_history] using hh
  | load =>
    have hperm := List.perm_insertionSort tsDesc st.store
    simpa [stepOp, loadHistoryApp, idsOf] using
      ((hperm.map HistoryRecord.id).nodup_iff).mpr (by simpa [idsOf] using hs)

/-- C3 fails as stated: `addToHistory` does not check the freshness of the
generated id, so two generations in the same millisecond that draw the same
random suffix produce two distinct history records with the same id. -/
theorem history_ids_can_collide :
    ¬ (idsOf (runOps initialState collidingOps).history).Nodup := by
  decide

/-- C3 amended: the persisted store, keyed on `id`, never holds two records
under the same key (a duplicate-key `add` aborts the write); and provided
every id generated by `addToHistory` is fresh for the current history — the
property the `Date.now() + Math.random()` generator is relied on for, but
does not enforce — any two distinct records in the history list have
different id values throughout every operation sequence. -/
theorem runOps_ids_nodup (st : AppState) (ops : List HistOp) :
    ((idsOf st.store).Nodup → (idsOf (runOps st ops).store).Nodup)
    ∧ ((idsOf st.history).Nodup → (idsOf st.store).Nodup → FreshRun st ops →
        (idsOf (runOps st ops).history).Nodup
        ∧ (idsOf (runOps st ops).store).Nodup) := by
  induction ops generalizing st with
  | nil => exact ⟨fun h => h, fun hh hs _ => ⟨hh, hs⟩⟩
  | cons op ops ih =>
    constructor
    · intro hs
      exact (ih (stepOp st op)).1 (stepOp_store_nodup st op hs)
    · intro hh hs hfr
      exact (ih (stepOp st op)).2
        (stepOp_history_nodup st op hh hs hfr.1)
        (stepOp_store_nodup st op hs) hfr.2

/-- Witness for `runOps_ids_nodup`: two adds with fresh ids keep both the
history and the store duplicate-free. -/
theorem runOps_ids_nodup_witness :
    (idsOf (runOps initialState freshOps).history).Nodup
    ∧ (idsOf (runOps initialState freshOps).store).Nodup :=
  (runOps_ids_nodup initialState freshOps).2 (by decide) (by decide)
    ⟨by decide, by decide, trivial⟩

theorem updateResultItem_history_eq (index : Nat) (imageUrl historyId : String)
    (st : AppState) (hurl : imageUrl ≠ "") :
    (updateResultItem index imageUrl historyId st).history =
      (updateResultItemHistory index imageUrl historyId st).history := by
  unfold updateResultItem
  rw [if_neg hurl]
  simp only
  split <;> rfl

theorem updateResultItem_store_eq (index : Nat) (imageUrl historyId : String)
    (st : AppState) (hurl : imageUrl ≠ "") :
    (updateResultItem index imageUrl historyId st).store =
      (updateResultItemHistory index imageUrl historyId st).store := by
  unfold updateResultItem
  rw [if_neg hurl]
  simp only
  split <;> rfl

theorem updateResultItem_view_unchanged (index : Nat) (imageUrl historyId : String)
    (st : AppState) (hurl : imageUrl ≠ "")
    (hne : st.currentHistoryId ≠ some historyId) :
    updateResultItem index imageUrl historyId st =
      updateResultItemHistory index imageUrl historyId st := by
  have hbeq : ((updateResultItemHistory index imageUrl historyId st).currentHistoryId
      == some historyId) = false := by
    rw [urih_currentHistoryId]
    exact beq_eq_false_iff_ne.mpr hne
  unfold updateResultItem
  rw [if_neg hurl]
  simp only [hbeq, Bool.false_eq_true, if_false]

/-- C2: on completion of an image, the `(index, url)` record ends up on the
history record whose id was captured at generation start — also when the
user is viewing another record — the updated history is persisted, and the
`generatedImages` list and the results grid change only when the captured
id is the currently selected one. -/
theorem updateResultItem_correct (st : AppState) (index : Nat)
    (imageUrl historyId : String) (r : HistoryRecord)
    (hurl : imageUrl ≠ "")
    (hfind : st.history.find? (fun h => h.id == historyId) = some r) :
    (∃ r', (updateResultItem index imageUrl historyId st).history.find?
        (fun h => h.id == historyId) = some r'
      ∧ r'.id = r.id ∧ (⟨index, imageUrl⟩ : GenImage) ∈ r'.images)
    ∧ ((¬ ∃ img ∈ r.images, img.index = index ∧ img.url = imageUrl) →
        (updateResultItem index imageUrl historyId st).history =
          updateFirst (fun h => h.id == historyId)
            (fun h => { h with images := h.images ++ [⟨index, imageUrl⟩] })
            st.history
        ∧ (updateResultItem index imageUrl historyId st).store =
          (saveHistoryApp
            { st with history := (updateFirst (fun h => h.id == historyId)
                (fun h => { h with images := h.images ++ [⟨index, imageUrl⟩] })
                st.history) }).store)
    ∧ (st.currentHistoryId ≠ some historyId →
        (updateResultItem index imageUrl historyId st).generatedImages =
          st.generatedImages
        ∧ (updateResultItem index imageUrl historyId st).resultsGrid =
          st.resultsGrid) := by
  have hp : (r.id == historyId) = true :=
    @List.find?_some _ (fun h => h.id == historyId) r st.history hfind
  have hviewC : st.currentHistoryId ≠ some historyId →
      (updateResultItem index imageUrl historyId st).generatedImages =
        st.generatedImages
      ∧ (updateResultItem index imageUrl historyId st).resultsGrid =
        st.resultsGrid := by
    intro hne
    rw [updateResultItem_view_unchanged index imageUrl historyId st hurl hne]
    exact ⟨urih_generatedImages _ _ _ _, urih_resultsGrid _ _ _ _⟩
  by_cases hex : r.images.any
      (fun img => img.index == index && img.url == imageUrl) = true
  · have hst1 : updateResultItemHistory index imageUrl historyId st = st := by
      unfold updateResultItemHistory
      rw [hfind]
      simp only
      rw [if_pos hex]
    obtain ⟨img, himgmem, himgp⟩ := List.any_eq_true.mp hex
    have himg : img = (⟨index, imageUrl⟩ : GenImage) := by
      cases img
      simp only [Bool.and_eq_true, beq_iff_eq] at himgp
      simp [himgp.1, himgp.2]
    refine ⟨⟨r, ?_, rfl, himg ▸ himgmem⟩, fun hnex => ?_, hviewC⟩
    · rw [updateResultItem_history_eq index imageUrl historyId st hurl, hst1]
      exact hfind
    · exact absurd ⟨img, himgmem, by
        cases img
        simp only [Bool.and_eq_true, beq_iff_eq] at himgp
        exact ⟨himgp.1, himgp.2⟩⟩ hnex
  · have hst1 : updateResultItemHistory index imageUrl historyId st =
        saveHistoryApp
          { st with history := (updateFirst (fun h => h.id == historyId)
              (fun h => { h with images := h.images ++ [⟨index, imageUrl⟩] })
              st.history) } := by
      unfold updateResultItemHistory
      rw [hfind]
      simp only
      rw [if_neg hex]
    refine ⟨⟨{ r with images := r.images ++ [⟨index, imageUrl⟩] }, ?_, rfl, ?_⟩,
      fun _hnex => ⟨?_, ?_⟩, hviewC⟩
    · rw [updateResultItem_history_eq index imageUrl historyId st hurl, hst1,
        saveHistoryApp_history]
      exact find?_updateFirst (fun h => h.id == historyId)
        (fun h => { h with images := h.images ++ [⟨index, imageUrl⟩] }) r hp
        st.history hfind
    · exact List.mem_append.mpr (Or.inr (by simp))
    · rw [updateResultItem_history_eq index imageUrl historyId st hurl, hst1,
        saveHistoryApp_history]
    · rw [updateResultItem_store_eq index imageUrl historyId st hurl, hst1]

/-- Witness for `updateResultItem_correct`: a completion for record `hid`
while the user is viewing record `other` updates the stored record but not
the current view. -/
theorem updateResultItem_correct_witness :
    (∃ r', (updateResultItem 1 "url1" "hid" c2state).history.find?
        (fun h => h.id == "hid") = some r'
      ∧ r'.id = c2record.id ∧ (⟨1, "url1"⟩ : GenImage) ∈ r'.images)
    ∧ ((updateResultItem 1 "url1" "hid" c2state).generatedImages =
        c2state.generatedImages
      ∧ (updateResultItem 1 "url1" "hid" c2state).resultsGrid =
        c2state.resultsGrid) :=
  ⟨(updateResultItem_correct c2state 1 "url1" "hid" c2record (by decide)
      (by decide)).1,
   (updateResultItem_correct c2state 1 "url1" "hid" c2record (by decide)
      (by decide)).2.2 (by decide)⟩

theorem noImageError_ne_ok (d : ApiResponse) (u : String) :
    noImageError d ≠ .ok u := by
  unfold noImageError
  cases firstContent d with
  | none => simp
  | some tc =>
    simp only
    split <;> simp

theorem handleOk_ok_iff (d : ApiResponse) (u : String) :
    handleOkResponse d = .ok u ↔ (extractedImageUrl d = some u ∧ u ≠ "") := by
  unfold handleOkResponse
  cases he : extractedImageUrl d with
  | none =>
    simp only
    constructor
    · intro h
      exact absurd h (noImageError_ne_ok d u)
    · rintro ⟨h, _⟩
      cases h
  | some v =>
    simp only
    by_cases hv : v = ""
    · subst hv
      rw [if_pos rfl]
      constructor
      · intro h
        exact absurd h (noImageError_ne_ok d u)
      · rintro ⟨h, hne⟩
        injection h with h'
        exact absurd h'.symm hne
    · rw [if_neg hv]
      constructor
      · intro h
        injection h with h'
        subst h'
        exact ⟨rfl, hv⟩
      · rintro ⟨h, _⟩
        injection h with h'
        rw [h']

theorem jsTruthy_false_some {o : Option String} {u : String}
    (hf : jsTruthy o = false) (ho : o = some u) : u = "" := by
  subst ho
  simpa [jsTruthy] using hf

theorem extracted_some_iff (d : ApiResponse) (u : String) :
    (extractedImageUrl d = some u ∧ u ≠ "") ↔
      ((jsTruthy (directImageUrl d) = true ∧ directImageUrl d = some u)
        ∨ (jsTruthy (directImageUrl d) = false
            ∧ ∃ c, firstContent d = some c ∧ c ≠ ""
                ∧ findMarkdownImage c.data = some u ∧ u ≠ "")) := by
  simp only [extractedImageUrl]
  by_cases hd : jsTruthy (directImageUrl d) = true
  · rw [if_pos hd]
    constructor
    · rintro ⟨ho, _⟩
      exact Or.inl ⟨hd, ho⟩
    · rintro (⟨_, ho⟩ | ⟨hf, _⟩)
      · refine ⟨ho, ?_⟩
        rw [ho] at hd
        simpa [jsTruthy] using hd
      · rw [hd] at hf
        cases hf
  · have hd' : jsTruthy (directImageUrl d) = false := by
      simpa using hd
    rw [if_neg hd]
    have hdirbad : ∀ h : directImageUrl d = some u, u ≠ "" → False := fun ho hne =>
      hne (jsTruthy_false_some hd' ho)
    cases hc : firstContent d with
    | none =>
      simp only
      constructor
      · rintro ⟨ho, hne⟩
        exact absurd (jsTruthy_false_some hd' ho) hne
      · rintro (⟨ht, _⟩ | ⟨_, c, hc', _⟩)
        · rw [ht] at hd'; cases hd'
        · cases hc'
    | some c =>
      simp only
      by_cases hc0 : c = ""
      · rw [if_pos hc0]
        constructor
        · rintro ⟨ho, hne⟩
          exact absurd (jsTruthy_false_some hd' ho) hne
        · rintro (⟨ht, _⟩ | ⟨_, c', hc', hc0', _⟩)
          · rw [ht] at hd'; cases hd'
          · injection hc' with hcc
            exact absurd (hcc ▸ hc0) hc0'
      · rw [if_neg hc0]
        cases hm : findMarkdownImage c.data with
        | none =>
          simp only
          constructor
          · rintro ⟨ho, hne⟩
            exact absurd (jsTruthy_false_some hd' ho) hne
          · rintro (⟨ht, _⟩ | ⟨_, c', hc', _, hm', _⟩)
            · rw [ht] at hd'; cases hd'
            · injection hc' with hcc
              subst hcc
              rw [hm] at hm'
              cases hm'
        | some m =>
          simp only
          by_cases hm0 : m = ""
          · rw [if_pos hm0]
            constructor
            · rintro ⟨ho, hne⟩
              exact absurd (jsTruthy_false_some hd' ho) hne
            · rintro (⟨ht, _⟩ | ⟨_, c', hc', _, hm', hmne⟩)
              · rw [ht] at hd'; cases hd'
              · injection hc' with hcc
                subst hcc
                rw [hm] at hm'
                injection hm' with hmm
                exact absurd (hmm ▸ hm0) hmne
          · rw [if_neg hm0]
            constructor
            · rintro ⟨ho, _⟩
              injection ho with ho'
              subst ho'
              exact Or.inr ⟨hd', c, rfl, hc0, hm, hm0⟩
            · rintro (⟨ht, _⟩ | ⟨_, c', hc', _, hm', hmne⟩)
              · rw [ht] at hd'; cases hd'
              · injection hc' with hcc
                subst hcc
                rw [hm] at hm'
                injection hm' with hmm
                subst hmm
                exact ⟨rfl, hmne⟩

/-- C10: `generateImage` returns an image URL exactly when one can be
extracted from an OK response — from the direct image field or from a
markdown image link in the message content — and any returned URL comes
from one of those two places; in every other case (non-OK response or no
extractable URL) it throws. -/
theorem generateImage_ok_iff (ok : Bool) (status : Nat) (eb : Option ErrorData)
    (d : ApiResponse) :
    ((∃ u, generateImageResult ok status eb d = .ok u)
      ↔ (ok = true ∧ imageUrlExtractable d))
    ∧ (∀ u, generateImageResult ok status eb d = .ok u →
        directImageUrl d = some u
        ∨ ∃ c, firstContent d = some c ∧ findMarkdownImage c.data = some u) := by
  cases ok with
  | false =>
    refine ⟨⟨fun ⟨u, hu⟩ => ?_, fun ⟨h, _⟩ => by cases h⟩, fun u hu => ?_⟩
    · simp [generateImageResult] at hu
    · simp [generateImageResult] at hu
  | true =>
    have hres : generateImageResult true status eb d = handleOkResponse d := by
      simp [generateImageResult]
    rw [hres]
    constructor
    · constructor
      · rintro ⟨u, hu⟩
        have h2 := (extracted_some_iff d u).mp ((handleOk_ok_iff d u).mp hu)
        refine ⟨rfl, ?_⟩
        rcases h2 with ⟨ht, _⟩ | ⟨_, c, hc, hc0, hm, hmne⟩
        · exact Or.inl ht
        · exact Or.inr ⟨c, hc, hc0, u, hm, hmne⟩
      · rintro ⟨_, hext⟩
        by_cases hd : jsTruthy (directImageUrl d) = true
        · cases hdo : directImageUrl d with
          | none => rw [hdo] at hd; simp [jsTruthy] at hd
          | some u0 =>
            exact ⟨u0, (handleOk_ok_iff d u0).mpr
              ((extracted_some_iff d u0).mpr (Or.inl ⟨hd, hdo⟩))⟩
        · have hd' : jsTruthy (directImageUrl d) = false := by simpa using hd
          rcases hext with ht | ⟨c, hc, hc0, m, hm, hmne⟩
          · rw [ht] at hd'; cases hd'
          · exact ⟨m, (handleOk_ok_iff d m).mpr
              ((extracted_some_iff d m).mpr (Or.inr ⟨hd', c, hc, hc0, hm, hmne⟩))⟩
    · intro u hu
      have h2 := (extracted_some_iff d u).mp ((handleOk_ok_iff d u).mp hu)
      rcases h2 with ⟨_, ho⟩ | ⟨_, c, hc, _, hm, _⟩
      · exact Or.inl ho
      · exact Or.inr ⟨c, hc, hm⟩

/-- Witness for `generateImage_ok_iff`: a response with a direct image URL
yields that URL, and it comes from the direct field. -/
theorem generateImage_ok_iff_witness :
    directImageUrl c10resp = some "http://img"
    ∨ ∃ c, firstContent c10resp = some c
        ∧ findMarkdownImage c.data = some "http://img" :=
  (generateImage_ok_iff true 200 none c10resp).2 "http://img" rfl

end ImageGen
